import Mathlib

/-!
# A shallow embedding of the `tracer` library

The library wraps the Linux `ptrace`/`waitpid` interface.  This development
embeds

* `include/stop_reason.hpp`, `src/generic/stop_reason.cpp`: the stop reasons,
  their order, the pure translation of a raw wait status and the resume
  request of a stop reason;
* `include/tracer.hpp`, `src/generic/tracer.cpp`: the tracee record and the
  operations `fork`, `attach`, `resume`, `wait`, `resume_and_wait`,
  `read_registers` and `write_registers`, together with the private helpers
  `_set_options`, `_handle_fork` and `_await_sigstop`;
* `src/x86_64-linux-gnu/tracer.cpp`, `src/aarch64-linux-gnu/tracer.cpp`: the
  access to the system call arguments on the two targets.

C `int` and `pid_t` values are integers (`Int`); the bit operations on them
are those of `Int`, which follow the two-complement reading.  The operating system is an
explicit value: the answers it will give are scripted, the requests it has
received are logged.
-/

namespace Tracer

/-! ## Constants of the Linux ABI (`<signal.h>`, `<errno.h>`, `<sys/ptrace.h>`)

They have the same value on both targets of the repository
(`x86_64-linux-gnu` and `aarch64-linux-gnu`). -/

/-- Signal number of `SIGTRAP`. -/
def SIGTRAP : Int := 5

/-- Signal number of `SIGSTOP`. -/
def SIGSTOP : Int := 19

/-- Error number `EINTR`. -/
def EINTR : Int := 4

/-- Error number `ECHILD`. -/
def ECHILD : Int := 10

/-- Event code `PTRACE_EVENT_FORK`. -/
def PTRACE_EVENT_FORK : Int := 1

/-- Event code `PTRACE_EVENT_VFORK`. -/
def PTRACE_EVENT_VFORK : Int := 2

/-- Event code `PTRACE_EVENT_CLONE`. -/
def PTRACE_EVENT_CLONE : Int := 3

/-! ## The wait status macros of glibc (`<bits/waitstatus.h>`) -/

/-- Conversion of an `int` to `signed char` (modulo `2^8`). -/
def signed_char (x : Int) : Int := (x + 128) % 256 - 128

/-- The macro `#define __WEXITSTATUS(status) (((status) & 0xff00) >> 8)`. -/
def WEXITSTATUS (status : Int) : Int := (Int.land status 0xff00) >>> (8 : Nat)

/-- The macro `#define __WTERMSIG(status) ((status) & 0x7f)`. -/
def WTERMSIG (status : Int) : Int := Int.land status 0x7f

/-- The macro `#define __WSTOPSIG(status) __WEXITSTATUS(status)`. -/
def WSTOPSIG (status : Int) : Int := WEXITSTATUS status

/-- The macro `#define __WIFEXITED(status) (__WTERMSIG(status) == 0)`. -/
def WIFEXITED (status : Int) : Bool := WTERMSIG status == 0

/-- The macro `#define __WIFSIGNALED(status)
(((signed char) (((status) & 0x7f) + 1) >> 1) > 0)`. -/
def WIFSIGNALED (status : Int) : Bool :=
  decide (signed_char (Int.land status 0x7f + 1) >>> (1 : Nat) > 0)

/-- The macro `#define __WIFSTOPPED(status) (((status) & 0xff) == 0x7f)`. -/
def WIFSTOPPED (status : Int) : Bool := Int.land status 0xff == 0x7f

/-! ## `stop_reason.hpp` / `stop_reason.cpp` -/

/-- The enumeration `stop_reason`. -/
inductive stop_reason
  | EXITED
  | FORKED
  | SYSCALL_ENTRY
  | SYSCALL_EXIT
  | SIGNALED
  | STEPPED
  | NOT_STOPPED
  deriving DecidableEq

open stop_reason

/-- The requests of `enum __ptrace_request` that the library issues. -/
inductive ptrace_request
  | PTRACE_TRACEME
  | PTRACE_PEEKDATA
  | PTRACE_POKEDATA
  | PTRACE_CONT
  | PTRACE_SINGLESTEP
  | PTRACE_ATTACH
  | PTRACE_DETACH
  | PTRACE_SYSCALL
  | PTRACE_SETOPTIONS
  | PTRACE_GETEVENTMSG
  | PTRACE_GETREGSET
  | PTRACE_SETREGSET
  deriving DecidableEq

open ptrace_request

/-- The local `ptrace_event` of `stop_reason_for_wait_status`:
`(((status>>8) & 0xffff) & ~SIGTRAP) >> 8`. -/
def ptrace_event (status : Int) : Int :=
  (Int.land (Int.land (status >>> (8 : Nat)) 0xffff) (~~~SIGTRAP)) >>> (8 : Nat)

/-- The function `stop_reason_for_wait_status` of `stop_reason.cpp`. -/
def stop_reason_for_wait_status (status : Int) (in_syscall : Bool) : stop_reason :=
  if WIFEXITED status then
    EXITED
  else if WIFSIGNALED status then
    EXITED
  else if WIFSTOPPED status then
    if WSTOPSIG status = Int.lor SIGTRAP 0x80 then
      (if in_syscall then SYSCALL_EXIT else SYSCALL_ENTRY)
    else if WSTOPSIG status = SIGTRAP then
      if ptrace_event status = 0 then
        SIGNALED
      else if ptrace_event status = PTRACE_EVENT_FORK
          ∨ ptrace_event status = PTRACE_EVENT_VFORK
          ∨ ptrace_event status = PTRACE_EVENT_CLONE then
        FORKED
      else
        NOT_STOPPED
    else
      SIGNALED
  else
    NOT_STOPPED

/-- The function `ptrace_request_for_stop_reason` of `stop_reason.cpp`. -/
def ptrace_request_for_stop_reason (until_ : stop_reason) : ptrace_request :=
  match until_ with
  | STEPPED => PTRACE_SINGLESTEP
  | SYSCALL_ENTRY => PTRACE_SYSCALL
  | SYSCALL_EXIT => PTRACE_SYSCALL
  | SIGNALED => PTRACE_CONT
  | EXITED => PTRACE_CONT
  | NOT_STOPPED => PTRACE_DETACH
  | FORKED => PTRACE_DETACH  -- no `case` of its own: the `default` label

/-- The function `operator<` of `stop_reason.cpp`: whether `a` subsumes `b`. -/
def operator_lt (a b : stop_reason) : Bool :=
  match b with
  | EXITED => a == STEPPED
  | FORKED => a == SYSCALL_ENTRY || a == SYSCALL_EXIT || a == SIGNALED || a == STEPPED
  | SYSCALL_ENTRY => a == SIGNALED || a == STEPPED
  | SYSCALL_EXIT => a == SIGNALED || a == STEPPED
  | SIGNALED => a == STEPPED
  | STEPPED => false
  | NOT_STOPPED => false

/-- The chain the specification gives for the order:
`STEPPED < SIGNALED < {SYSCALL_ENTRY, SYSCALL_EXIT} < FORKED` and
`STEPPED < EXITED`. -/
inductive subsumes_step : stop_reason → stop_reason → Prop
  | stepped_signaled : subsumes_step STEPPED SIGNALED
  | signaled_entry : subsumes_step SIGNALED SYSCALL_ENTRY
  | signaled_exit : subsumes_step SIGNALED SYSCALL_EXIT
  | entry_forked : subsumes_step SYSCALL_ENTRY FORKED
  | exit_forked : subsumes_step SYSCALL_EXIT FORKED
  | stepped_exited : subsumes_step STEPPED EXITED

/-! ## `tracer.hpp`: the data model -/

/-- The `struct tracee` of `tracer.hpp`, over the register file `R` of the
target (`struct user_regs_struct` of `<sys/user.h>`).  `status` and
`registers` have no initialiser in the source; `status` starts at `0` here. -/
structure tracee (R : Type) where
  process_id : Int := -1
  stop_reason : stop_reason := Tracer.stop_reason.NOT_STOPPED
  status : Int := 0
  in_syscall : Bool := false
  registers_valid : Bool := false
  registers : R

/-- The data members of `class tracer`: the tracee record and the list of
child tracers. -/
structure tracer (R : Type) where
  tracee : tracee R
  _children : List (tracer R)

/-- The exceptions thrown by the generic code, one constructor for each
`throw tracer_exception(...)`, named after its message. -/
inductive tracer_exception
  /-- Message "Illegal call with uninitialized tracee." -/
  | uninitialized_tracee
  /-- Message "handle_fork may only be called with tracee stopped immediately after a fork." -/
  | handle_fork_not_forked
  /-- Message "Unable to obtain forked child process id: ..." -/
  | no_forked_child_id
  /-- Message "Child stopped for unexpected reason ... (status ...) during attach." -/
  | unexpected_stop_during_attach (stop : stop_reason) (status : Int)
  /-- Message "Cannot `resume` a tracee that is not currently stopped." -/
  | resume_not_stopped
  /-- Message "`resume` can not be called with a `NOT_STOPPED` until argument." -/
  | resume_until_not_stopped
  /-- Message "Cannot `wait` for a tracee that is already stopped." -/
  | wait_already_stopped
  /-- Message "No tracee ..., or not a child of this process, and no exit of tracee
  was observed through tracer class." -/
  | ghost_child (pid : Int)
  /-- Message "waitpid returned unexpected error ..." -/
  | waitpid_unexpected_error (errno : Int)
  /-- Message "Unknown/unhandled stop reason: ..." -/
  | unhandled_stop_reason (status : Int)
  /-- Message "could not set ptrace options: ..." -/
  | could_not_set_options (errno : Int)
  /-- Message "Cannot fork; the tracer is already attached to a child." -/
  | already_attached
  /-- Message "Unable to accept tracing in child ..." -/
  | unable_to_accept_tracing
  /-- Message "Unable to attach to ...: ..." -/
  | unable_to_attach (pid : Int) (errno : Int)
  /-- Message "Could not read registers: ..." -/
  | could_not_read_registers
  /-- Message "Could not write registers: ..." -/
  | could_not_write_registers
  /-- Message "syscall argument ... not in range ..." -/
  | syscall_argument_not_in_range (i : Nat)
  deriving DecidableEq

/-! ## The operating system -/

/-- What one call `waitpid(pid, &status, 0)` leaves behind: its return value,
the variable `status` and `errno`. -/
structure waitpid_result where
  ret : Int
  status : Int
  errno : Int
  deriving DecidableEq

/-- What one call of `ptrace` leaves behind: its return value, `errno` and the
word stored through the `data` pointer. -/
structure ptrace_result where
  ret : Int
  errno : Int
  data : Int
  deriving DecidableEq

/-- The requests the library sends to the operating system. -/
inductive os_call
  | waitpid (pid : Int)
  | ptrace (request : ptrace_request) (pid : Int) (data : Int)
  | kill (pid : Int) (signal : Int)
  | fork
  | raise (signal : Int)
  deriving DecidableEq

/-- The operating system as the library sees it.  `waitpid_results` are the
results of the coming `waitpid` calls in order; when none is left the call
never returns.  `ptrace_results` are the results of the coming `ptrace` calls
whose result the library inspects; when none is left the call fails (`-1`).
`calls` is the log of the requests sent so far, oldest first. -/
structure OS where
  waitpid_results : List waitpid_result
  ptrace_results : List ptrace_result
  calls : List os_call
  deriving DecidableEq

/-- How a call of a member function ends. -/
inductive Result (α : Type)
  /-- The call returned a value. -/
  | ok (a : α)
  /-- The call threw a `tracer_exception`. -/
  | throw (e : tracer_exception)
  /-- The call never returns: `waitpid` blocks for ever. -/
  | blocked
  /-- The call ran into signed integer overflow, undefined in C++. -/
  | undefined
  /-- The recursion bound of the embedding was reached. -/
  | out_of_fuel
  deriving DecidableEq

/-- A call's end together with the object and the operating system as the
call left them (a thrown exception does not undo earlier assignments). -/
structure Outcome (R α : Type) where
  result : Result α
  self : tracer R
  os : OS

/-- Sequencing: the continuation runs when the first call returned. -/
def Outcome.bind {R α β : Type} (o : Outcome R α)
    (k : α → tracer R → OS → Outcome R β) : Outcome R β :=
  match o.result with
  | Result.ok a => k a o.self o.os
  | Result.throw e => ⟨Result.throw e, o.self, o.os⟩
  | Result.blocked => ⟨Result.blocked, o.self, o.os⟩
  | Result.undefined => ⟨Result.undefined, o.self, o.os⟩
  | Result.out_of_fuel => ⟨Result.out_of_fuel, o.self, o.os⟩

/-- The largest `int`. -/
def INT_MAX : Int := 2147483647

/-! ## `tracer.cpp` -/

section generic

variable {R : Type}

/-- The constructor `tracer::tracer(pid_t pid)`; `tracer::tracer()` is
`tracer.ctor (-1)`. -/
def tracer.ctor [Inhabited R] (pid : Int) : tracer R :=
  { tracee := { process_id := pid, registers := default }, _children := [] }

/-- The macro `tracer_ensure_invariants()`, followed by the rest of the body. -/
def tracer_ensure_invariants {α : Type} (t : tracer R) (os : OS)
    (body : Outcome R α) : Outcome R α :=
  if t.tracee.process_id = -1 then
    ⟨Result.throw tracer_exception.uninitialized_tracee, t, os⟩
  else
    body

/-- The member function `tracer::resume`.  The value `ptrace` returns is
discarded by the source, so no answer of the operating system is consumed. -/
def resume (until_ : stop_reason) (t : tracer R) (os : OS) : Outcome R Unit :=
  tracer_ensure_invariants t os <|
  if t.tracee.stop_reason = NOT_STOPPED then
    ⟨Result.throw tracer_exception.resume_not_stopped, t, os⟩
  else if until_ = NOT_STOPPED then
    ⟨Result.throw tracer_exception.resume_until_not_stopped, t, os⟩
  else
    let request := ptrace_request_for_stop_reason until_
    ⟨Result.ok (),
     { t with tracee := { t.tracee with registers_valid := false, stop_reason := NOT_STOPPED } },
     { os with calls := os.calls ++ [os_call.ptrace request t.tracee.process_id 0] }⟩

/-- The loop `do { wait_return = waitpid(pid, &status, 0); }
while(wait_return != pid && errno == EINTR);` of `tracer::wait`, on the list
of coming `waitpid` results: the result that ends the loop (none when the
call blocks), the results left and the log. -/
def waitpid_retry (pid : Int) :
    List waitpid_result → List os_call → Option waitpid_result × List waitpid_result × List os_call
  | [], calls => (none, [], calls ++ [os_call.waitpid pid])
  | r :: rs, calls =>
    if r.ret ≠ pid ∧ r.errno = EINTR then
      waitpid_retry pid rs (calls ++ [os_call.waitpid pid])
    else
      (some r, rs, calls ++ [os_call.waitpid pid])

/-- One `ptrace` call whose result is inspected: the answer and the operating
system afterwards. -/
def OS.ptrace (os : OS) (request : ptrace_request) (pid data : Int) : ptrace_result × OS :=
  match os.ptrace_results with
  | [] => (⟨-1, 0, 0⟩, { os with calls := os.calls ++ [os_call.ptrace request pid data] })
  | a :: rest =>
    (a, { os with ptrace_results := rest,
                  calls := os.calls ++ [os_call.ptrace request pid data] })

/-- The loop `for(int signal : pending_signals) kill(pid, signal);`. -/
def kill_all (pid : Int) (pending_signals : List Int) (os : OS) : OS :=
  { os with calls := os.calls ++ pending_signals.map (os_call.kill pid) }

mutual

/-- The member function `tracer::wait`, with a bound on the nesting of the
calls `wait` → `_handle_fork` → `_await_sigstop` → `wait`. -/
def wait_fuel [Inhabited R] : Nat → tracer R → OS → Outcome R stop_reason
  | 0, t, os => ⟨Result.out_of_fuel, t, os⟩
  | fuel + 1, t, os =>
    tracer_ensure_invariants t os <|
    if t.tracee.stop_reason ≠ NOT_STOPPED then
      ⟨Result.throw tracer_exception.wait_already_stopped, t, os⟩
    else
      match waitpid_retry t.tracee.process_id os.waitpid_results os.calls with
      | (none, rs, calls) =>
        ⟨Result.blocked, t, { os with waitpid_results := rs, calls := calls }⟩
      | (some r, rs, calls) =>
        let os1 : OS := { os with waitpid_results := rs, calls := calls }
        if r.ret ≠ t.tracee.process_id then
          -- Must be either ECHILD or EINVAL
          if r.errno = ECHILD then
            if t.tracee.stop_reason ≠ EXITED then
              ⟨Result.throw (tracer_exception.ghost_child t.tracee.process_id), t, os1⟩
            else
              ⟨Result.ok EXITED, t, os1⟩
          else
            ⟨Result.throw (tracer_exception.waitpid_unexpected_error r.errno), t, os1⟩
        else
          let stop := stop_reason_for_wait_status r.status t.tracee.in_syscall
          if stop = NOT_STOPPED then
            ⟨Result.throw (tracer_exception.unhandled_stop_reason r.status), t, os1⟩
          else
            let t1 : tracer R :=
              { t with tracee := { t.tracee with status := r.status, stop_reason := stop } }
            if stop = SYSCALL_ENTRY ∨ stop = SYSCALL_EXIT then
              ⟨Result.ok stop,
               { t1 with tracee := { t1.tracee with in_syscall := !t1.tracee.in_syscall } }, os1⟩
            else if stop = FORKED then
              (_handle_fork fuel t1 os1).bind fun _ t2 os2 =>
                ⟨Result.ok t2.tracee.stop_reason, t2, os2⟩
            else
              ⟨Result.ok stop, t1, os1⟩

/-- The member function `tracer::_handle_fork`. -/
def _handle_fork [Inhabited R] : Nat → tracer R → OS → Outcome R Unit
  | 0, t, os => ⟨Result.out_of_fuel, t, os⟩
  | fuel + 1, t, os =>
    tracer_ensure_invariants t os <|
    if t.tracee.stop_reason ≠ FORKED then
      ⟨Result.throw tracer_exception.handle_fork_not_forked, t, os⟩
    else
      let (answer, os1) := os.ptrace PTRACE_GETEVENTMSG t.tracee.process_id 0
      if answer.ret = -1 then
        ⟨Result.throw tracer_exception.no_forked_child_id, t, os1⟩
      else
        let spawned_process_id := answer.data
        let child := _await_sigstop fuel (tracer.ctor spawned_process_id) os1
        ⟨child.result, { t with _children := t._children ++ [child.self] }, child.os⟩

/-- The member function `tracer::_await_sigstop`. -/
def _await_sigstop [Inhabited R] : Nat → tracer R → OS → Outcome R Unit
  | 0, t, os => ⟨Result.out_of_fuel, t, os⟩
  | fuel + 1, t, os =>
    tracer_ensure_invariants t os <|
    _await_sigstop_loop fuel []
      { t with tracee := { t.tracee with stop_reason := NOT_STOPPED } } os

/-- The `do ... while` loop of `tracer::_await_sigstop` and the signal
reinjection after it; `pending_signals` are the signals queued so far. -/
def _await_sigstop_loop [Inhabited R] : Nat → List Int → tracer R → OS → Outcome R Unit
  | 0, _, t, os => ⟨Result.out_of_fuel, t, os⟩
  | fuel + 1, pending_signals, t, os =>
    (wait_fuel fuel t os).bind fun stop t1 os1 =>
      if stop ≠ SIGNALED then
        ⟨Result.throw (tracer_exception.unexpected_stop_during_attach stop t1.tracee.status),
         t1, os1⟩
      else if WSTOPSIG t1.tracee.status ≠ SIGSTOP then
        (resume SIGNALED t1 os1).bind fun _ t2 os2 =>
          _await_sigstop_loop fuel (pending_signals ++ [WSTOPSIG t1.tracee.status]) t2 os2
      else
        ⟨Result.ok (), t1, kill_all t1.tracee.process_id pending_signals os1⟩

end

/-- A nesting bound that the scripted `waitpid` results left cannot exhaust
(`wait_fuel_enough`): every nested `wait` that returns consumes one. -/
def fuel_for (os : OS) : Nat := 4 * os.waitpid_results.length + 4

/-- The member function `tracer::wait`. -/
def wait [Inhabited R] (t : tracer R) (os : OS) : Outcome R stop_reason :=
  wait_fuel (fuel_for os) t os

/-- The `do ... while` loop of `tracer::resume_and_wait`; `stops` is the local
counter.  The first argument bounds the number of rounds. -/
def resume_and_wait_loop [Inhabited R] (until_ : stop_reason) (intermediate_stops : Int) :
    Nat → Int → tracer R → OS → Outcome R Bool
  | 0, _, t, os => ⟨Result.out_of_fuel, t, os⟩
  | fuel + 1, stops, t, os =>
    (resume until_ t os).bind fun _ t1 os1 =>
    (wait t1 os1).bind fun _ t2 os2 =>
      if stops = INT_MAX then
        ⟨Result.undefined, t2, os2⟩  -- `stops++` overflows
      else
        let stops := stops + 1
        if t2.tracee.stop_reason ≠ until_
            ∧ t2.tracee.stop_reason ≠ EXITED
            ∧ (intermediate_stops = -1 ∨ intermediate_stops ≥ stops) then
          resume_and_wait_loop until_ intermediate_stops fuel stops t2 os2
        else
          ⟨Result.ok (decide (t2.tracee.stop_reason = until_)), t2, os2⟩

/-- The member function `tracer::resume_and_wait`.  Every round that returns
consumes a scripted `waitpid` result, so one round more than results are left
is never exhausted (`resume_and_wait_fuel_enough`). -/
def resume_and_wait [Inhabited R] (until_ : stop_reason) (intermediate_stops : Int)
    (t : tracer R) (os : OS) : Outcome R Bool :=
  tracer_ensure_invariants t os <|
  resume_and_wait_loop until_ intermediate_stops (os.waitpid_results.length + 1) 0 t os

/-- The member function `tracer::_await_sigstop` with a nesting bound that
cannot be exhausted (`fuel_enough`). -/
def await_sigstop [Inhabited R] (t : tracer R) (os : OS) : Outcome R Unit :=
  _await_sigstop (fuel_for os) t os

/-- Option flag `PTRACE_O_TRACESYSGOOD` of `<sys/ptrace.h>`. -/
def PTRACE_O_TRACESYSGOOD : Int := 1

/-- Option flag `PTRACE_O_TRACEFORK` of `<sys/ptrace.h>`. -/
def PTRACE_O_TRACEFORK : Int := 2

/-- Option flag `PTRACE_O_TRACEVFORK` of `<sys/ptrace.h>`. -/
def PTRACE_O_TRACEVFORK : Int := 4

/-- Option flag `PTRACE_O_TRACECLONE` of `<sys/ptrace.h>`. -/
def PTRACE_O_TRACECLONE : Int := 8

/-- The member function `tracer::_set_options`. -/
def _set_options (trace_children : Bool) (t : tracer R) (os : OS) : Outcome R Unit :=
  let ptrace_options : Int := Int.lor 0 PTRACE_O_TRACESYSGOOD
  let ptrace_options : Int :=
    if trace_children then
      Int.lor (Int.lor (Int.lor ptrace_options PTRACE_O_TRACEFORK) PTRACE_O_TRACEVFORK)
        PTRACE_O_TRACECLONE
    else
      ptrace_options
  let (answer, os1) := os.ptrace PTRACE_SETOPTIONS t.tracee.process_id ptrace_options
  if answer.ret ≠ 0 then
    ⟨Result.throw (tracer_exception.could_not_set_options answer.errno), t, os1⟩
  else
    ⟨Result.ok (), t, os1⟩

/-- The member function `tracer::fork`; `child` is the value `::fork()`
returns, so `child = 0` is the call as it continues in the new process. -/
def fork [Inhabited R] (child : Int) (t : tracer R) (os : OS) : Outcome R Int :=
  if t.tracee.process_id ≠ -1 then
    ⟨Result.throw tracer_exception.already_attached, t, os⟩
  else
    let os0 : OS := { os with calls := os.calls ++ [os_call.fork] }
    if child = 0 then
      let (answer, os1) := os0.ptrace PTRACE_TRACEME 0 0
      if answer.ret ≠ 0 then
        ⟨Result.throw tracer_exception.unable_to_accept_tracing, t, os1⟩
      else
        ⟨Result.ok 0, t, { os1 with calls := os1.calls ++ [os_call.raise SIGSTOP] }⟩
    else
      let t1 : tracer R := { t with tracee := { t.tracee with process_id := child } }
      (await_sigstop t1 os0).bind fun _ t2 os2 =>
      (_set_options false t2 os2).bind fun _ t3 os3 =>
        ⟨Result.ok child, t3, os3⟩

/-- The member function `tracer::attach`. -/
def attach [Inhabited R] (pid : Int) (t : tracer R) (os : OS) : Outcome R Unit :=
  let (answer, os1) := os.ptrace PTRACE_ATTACH pid 0
  if answer.ret ≠ 0 then
    ⟨Result.throw (tracer_exception.unable_to_attach pid answer.errno), t, os1⟩
  else
    (_set_options false t os1).bind fun _ t2 os2 =>
      await_sigstop { t2 with tracee := { t2.tracee with process_id := pid } } os2

/-- The static member `_read_registers_internal` (the same on both targets):
one `ptrace(PTRACE_GETREGSET, pid, NT_PRSTATUS, &iov)`.  Its value and the
register file then found in `destination`, which is `kernel_registers`. -/
def _read_registers_internal (kernel_registers : R) (pid : Int) (os : OS) : Int × R × OS :=
  let (answer, os1) := os.ptrace PTRACE_GETREGSET pid 0
  (answer.ret, kernel_registers, os1)

/-- The static member `_write_registers_internal` (the same on both targets):
one `ptrace(PTRACE_SETREGSET, pid, NT_PRSTATUS, &iov)`. -/
def _write_registers_internal (pid : Int) (os : OS) : Int × OS :=
  let (answer, os1) := os.ptrace PTRACE_SETREGSET pid 0
  (answer.ret, os1)

/-- The member function `tracer::read_registers`; `kernel_registers` is what
a register read of the operating system stores, should one be made. -/
def read_registers (kernel_registers : R) (t : tracer R) (os : OS) : Outcome R R :=
  tracer_ensure_invariants t os <|
  if t.tracee.registers_valid then
    ⟨Result.ok t.tracee.registers, t, os⟩
  else
    let (ret, destination, os1) := _read_registers_internal kernel_registers t.tracee.process_id os
    if ret ≠ 0 then
      ⟨Result.throw tracer_exception.could_not_read_registers,
       { t with tracee := { t.tracee with registers := destination, registers_valid := false } },
       os1⟩
    else
      ⟨Result.ok destination,
       { t with tracee := { t.tracee with registers := destination, registers_valid := true } },
       os1⟩

/-- The member function `tracer::write_registers`. -/
def write_registers (new_registers : R) (t : tracer R) (os : OS) : Outcome R Unit :=
  tracer_ensure_invariants t os <|
  let (ret, os1) := _write_registers_internal t.tracee.process_id os
  if ret ≠ 0 then
    ⟨Result.throw tracer_exception.could_not_write_registers,
     { t with tracee := { t.tracee with registers_valid := false } }, os1⟩
  else
    ⟨Result.ok (),
     { t with tracee := { t.tracee with registers := new_registers, registers_valid := true } },
     os1⟩

/-- Conversion of a `long` to `unsigned long long` (modulo `2^64`). -/
def to_u64 (v : Int) : Int := v % 2 ^ 64

/-- Conversion of an `unsigned long long` to `long` (modulo `2^64`). -/
def to_long (x : Int) : Int := (x + 2 ^ 63) % 2 ^ 64 - 2 ^ 63

/-! ## Notions used by the statements -/

/-- The tracee record after a `wait` that observed the raw status `status`:
the assignments of `tracer::wait` after `stop_reason_for_wait_status`. -/
def tracee_after_stop (te : tracee R) (status : Int) : tracee R :=
  let stop := stop_reason_for_wait_status status te.in_syscall
  { te with status := status, stop_reason := stop,
            in_syscall := if stop = SYSCALL_ENTRY ∨ stop = SYSCALL_EXIT then !te.in_syscall
                          else te.in_syscall }

/-- One round `resume(until); wait();`, with the stop the `wait` observed. -/
def round [Inhabited R] (until_ : stop_reason) (t : tracer R) (os : OS) :
    Outcome R stop_reason :=
  (resume until_ t os).bind fun _ t1 os1 => wait t1 os1

/-- The loop of `resume_and_wait` as its documentation words it: rounds are
performed up to the first one whose observed stop is `until_` or `EXITED`;
`skips` is the number of intermediate stops that may still be skipped; the
value is whether the last observed stop is `until_`. -/
def rounds_until_spec [Inhabited R] (until_ : stop_reason) :
    Nat → tracer R → OS → Outcome R Bool
  | 0, t, os =>
    (round until_ t os).bind fun stop t1 os1 =>
      ⟨Result.ok (decide (stop = until_)), t1, os1⟩
  | skips + 1, t, os =>
    (round until_ t os).bind fun stop t1 os1 =>
      if stop = until_ ∨ stop = EXITED then
        ⟨Result.ok (decide (stop = until_)), t1, os1⟩
      else
        rounds_until_spec until_ skips t1 os1

/-- The tracers that sequences of `resume`, `wait` and `resume_and_wait`
reach from a constructed tracer, whatever the operating system answers and
however each call ends. -/
inductive Reachable [Inhabited R] : tracer R → Prop
  | ctor (pid : Int) : Reachable (tracer.ctor pid)
  | resume (until_ : stop_reason) (os : OS) {t : tracer R} :
      Reachable t → Reachable (resume until_ t os).self
  | wait (os : OS) {t : tracer R} :
      Reachable t → Reachable (wait t os).self
  | resume_and_wait (until_ : stop_reason) (intermediate_stops : Int) (os : OS)
      {t : tracer R} :
      Reachable t → Reachable (resume_and_wait until_ intermediate_stops t os).self

end generic

/-! ## `src/x86_64-linux-gnu/tracer.cpp` -/

namespace x86_64

/-- The `struct user_regs_struct` of `<sys/user.h>` on x86_64: 27 fields of
type `unsigned long long`. -/
structure user_regs_struct where
  r15 : Int := 0
  r14 : Int := 0
  r13 : Int := 0
  r12 : Int := 0
  rbp : Int := 0
  rbx : Int := 0
  r11 : Int := 0
  r10 : Int := 0
  r9 : Int := 0
  r8 : Int := 0
  rax : Int := 0
  rcx : Int := 0
  rdx : Int := 0
  rsi : Int := 0
  rdi : Int := 0
  orig_rax : Int := 0
  rip : Int := 0
  cs : Int := 0
  eflags : Int := 0
  rsp : Int := 0
  ss : Int := 0
  fs_base : Int := 0
  gs_base : Int := 0
  ds : Int := 0
  es : Int := 0
  fs : Int := 0
  gs : Int := 0
  deriving DecidableEq, Inhabited

/-- The constant `tracer::n_syscall_arguments` of the x86_64 target. -/
def n_syscall_arguments : Int := 6

/-- The member function `tracer::get_syscall_argument` of the x86_64 target. -/
def get_syscall_argument (kernel_registers : user_regs_struct) (i : Nat)
    (t : tracer user_regs_struct) (os : OS) : Outcome user_regs_struct Int :=
  tracer_ensure_invariants t os <|
  (read_registers kernel_registers t os).bind fun registers t1 os1 =>
    match i with
    | 0 => ⟨Result.ok (to_long registers.rdi), t1, os1⟩
    | 1 => ⟨Result.ok (to_long registers.rsi), t1, os1⟩
    | 2 => ⟨Result.ok (to_long registers.rdx), t1, os1⟩
    | 3 => ⟨Result.ok (to_long registers.r10), t1, os1⟩
    | 4 => ⟨Result.ok (to_long registers.r8), t1, os1⟩
    | 5 => ⟨Result.ok (to_long registers.r9), t1, os1⟩
    | _ => ⟨Result.throw (tracer_exception.syscall_argument_not_in_range i), t1, os1⟩

/-- The member function `tracer::set_syscall_argument` of the x86_64 target. -/
def set_syscall_argument (kernel_registers : user_regs_struct) (i : Nat) (value : Int)
    (t : tracer user_regs_struct) (os : OS) : Outcome user_regs_struct Unit :=
  tracer_ensure_invariants t os <|
  (read_registers kernel_registers t os).bind fun new_registers t1 os1 =>
    match i with
    | 0 => write_registers { new_registers with rdi := to_u64 value } t1 os1
    | 1 => write_registers { new_registers with rsi := to_u64 value } t1 os1
    | 2 => write_registers { new_registers with rdx := to_u64 value } t1 os1
    | 3 => write_registers { new_registers with r10 := to_u64 value } t1 os1
    | 4 => write_registers { new_registers with r8 := to_u64 value } t1 os1
    | 5 => write_registers { new_registers with r9 := to_u64 value } t1 os1
    | _ => ⟨Result.throw (tracer_exception.syscall_argument_not_in_range i), t1, os1⟩

end x86_64

/-! ## `src/aarch64-linux-gnu/tracer.cpp` -/

namespace aarch64

/-- The `struct user_regs_struct` of `<sys/user.h>` on aarch64: the array
`regs[31]` and `sp`, `pc`, `pstate`, all `unsigned long long`. -/
structure user_regs_struct where
  regs : Fin 31 → Int := fun _ => 0
  sp : Int := 0
  pc : Int := 0
  pstate : Int := 0
  deriving Inhabited

/-- The constant `tracer::n_syscall_arguments` of the aarch64 target. -/
def n_syscall_arguments : Int := 7

/-- The member function `tracer::get_syscall_argument` of the aarch64 target.
The index is a `size_t`, so the test `i < 0` of the source is never true. -/
def get_syscall_argument (kernel_registers : user_regs_struct) (i : Nat)
    (t : tracer user_regs_struct) (os : OS) : Outcome user_regs_struct Int :=
  tracer_ensure_invariants t os <|
  if h : i > 7 then
    ⟨Result.throw (tracer_exception.syscall_argument_not_in_range i), t, os⟩
  else
    (read_registers kernel_registers t os).bind fun registers t1 os1 =>
      ⟨Result.ok (to_long (registers.regs ⟨0 + i, by omega⟩)), t1, os1⟩

/-- The member function `tracer::set_syscall_argument` of the aarch64 target. -/
def set_syscall_argument (kernel_registers : user_regs_struct) (i : Nat) (value : Int)
    (t : tracer user_regs_struct) (os : OS) : Outcome user_regs_struct Unit :=
  tracer_ensure_invariants t os <|
  if h : i > 7 then
    ⟨Result.throw (tracer_exception.syscall_argument_not_in_range i), t, os⟩
  else
    (read_registers kernel_registers t os).bind fun new_registers t1 os1 =>
      write_registers
        { new_registers with
          regs := Function.update new_registers.regs ⟨0 + i, by omega⟩ (to_u64 value) }
        t1 os1

end aarch64

/-! ## Concrete tracers and operating systems -/

/-- A tracer of process `100`, stopped at a signal. -/
def stopped_tracer : tracer Unit :=
  { tracee := { process_id := 100, stop_reason := SIGNALED, status := 0x137f, registers := () },
    _children := [] }

/-- A tracer of process `100` that has observed the exit of its tracee. -/
def exited_tracer : tracer Unit :=
  { tracee := { process_id := 100, stop_reason := EXITED, status := 0, registers := () },
    _children := [] }

/-- An operating system with nothing to report. -/
def idle_os : OS := { waitpid_results := [], ptrace_results := [], calls := [] }

/-- An operating system that will report a stop by `SIGSTOP` (status `0x137f`)
and then a syscall-stop (status `0x857f`) of process `100`. -/
def stop_then_syscall_os : OS :=
  { waitpid_results := [⟨100, 0x137f, 0⟩, ⟨100, 0x857f, 0⟩], ptrace_results := [], calls := [] }

/-- An operating system that will report a syscall-stop of process `100`. -/
def syscall_os : OS :=
  { waitpid_results := [⟨100, 0x857f, 0⟩], ptrace_results := [], calls := [] }

/-- An operating system whose next `waitpid` fails with `ECHILD`. -/
def echild_os : OS :=
  { waitpid_results := [⟨-1, 0, ECHILD⟩], ptrace_results := [], calls := [] }

/-- An operating system that will report a stop by `SIGSTOP` and then the
exit of process `100` with code `0`. -/
def stop_then_exit_os : OS :=
  { waitpid_results := [⟨100, 0x137f, 0⟩, ⟨100, 0, 0⟩], ptrace_results := [], calls := [] }

/-- An initialised x86_64 tracer of process `100`, stopped, with no cached
registers. -/
def x86_tracer : tracer x86_64.user_regs_struct :=
  { tracee := { process_id := 100, stop_reason := SIGNALED, status := 0x137f, registers := {} },
    _children := [] }

/-- An initialised aarch64 tracer of process `100`, stopped, with no cached
registers. -/
def arm_tracer : tracer aarch64.user_regs_struct :=
  { tracee := { process_id := 100, stop_reason := SIGNALED, status := 0x137f, registers := {} },
    _children := [] }

/-- An operating system whose next two inspected `ptrace` calls succeed. -/
def registers_os : OS :=
  { waitpid_results := [], ptrace_results := [⟨0, 0, 0⟩, ⟨0, 0, 0⟩], calls := [] }

/-- An operating system whose next inspected `ptrace` call fails with `ESRCH`. -/
def failing_os : OS :=
  { waitpid_results := [], ptrace_results := [⟨-1, 3, 0⟩], calls := [] }

/-- An x86_64 register file with `rdi = 42`. -/
def x86_registers : x86_64.user_regs_struct := { rdi := 42 }

/-- An aarch64 register file with `regs[7] = 99`. -/
def arm_registers : aarch64.user_regs_struct :=
  { regs := fun j => if j = 7 then 99 else 0 }

/-- The requests of `rounds` iterations of the loop of `_await_sigstop` that
each met a signal other than `SIGSTOP`: a `waitpid`, then the resume request
of `resume(SIGNALED)`. -/
def wait_resume_calls (pid : Int) : Nat → List os_call
  | 0 => []
  | rounds + 1 =>
    os_call.waitpid pid :: os_call.ptrace PTRACE_CONT pid 0 :: wait_resume_calls pid rounds

/-- A fresh tracer, as `tracer::tracer()` constructs it. -/
def fresh_tracer : tracer Unit := tracer.ctor (-1)

/-- An operating system that answers two inspected `ptrace` calls with success
and will report a stop of process `100` by `SIGSTOP`. -/
def attach_os : OS :=
  { waitpid_results := [⟨100, 0x137f, 0⟩], ptrace_results := [⟨0, 0, 0⟩, ⟨0, 0, 0⟩], calls := [] }

/-- An operating system that accepts one inspected `ptrace` call and refuses
the next with `ESRCH`, and will report a stop of process `100` by `SIGSTOP`. -/
def attach_esrch_os : OS :=
  { waitpid_results := [⟨100, 0x137f, 0⟩], ptrace_results := [⟨0, 0, 0⟩, ⟨-1, 3, 0⟩], calls := [] }

/-- An operating system that will report stops of process `100` by `SIGUSR1`
(10), by `SIGCHLD` (17) and then by `SIGSTOP` (19). -/
def signals_os : OS :=
  { waitpid_results := [⟨100, 0x0a7f, 0⟩, ⟨100, 0x117f, 0⟩, ⟨100, 0x137f, 0⟩],
    ptrace_results := [⟨0, 0, 0⟩], calls := [] }

/-! ## Bit operations on integers -/

/-- Shifting right distributes over the bitwise difference of naturals. -/
theorem nat_ldiff_shiftRight (m n j : Nat) :
    Nat.ldiff m n >>> j = Nat.ldiff (m >>> j) (n >>> j) := by
  apply Nat.eq_of_testBit_eq
  intro i
  simp [Nat.testBit_ldiff, Nat.testBit_shiftRight]

/-- Shifting right distributes over the bitwise and of naturals. -/
theorem nat_and_shiftRight (m n j : Nat) :
    (m &&& n) >>> j = (m >>> j) &&& (n >>> j) := by
  apply Nat.eq_of_testBit_eq
  intro i
  simp [Nat.testBit_shiftRight]

/-- Shifting right distributes over the bitwise or of naturals. -/
theorem nat_or_shiftRight (m n j : Nat) :
    (m ||| n) >>> j = (m >>> j) ||| (n >>> j) := by
  apply Nat.eq_of_testBit_eq
  intro i
  simp [Nat.testBit_shiftRight]

/-- The C identity `(a & b) >> j = (a >> j) & (b >> j)` on integers. -/
theorem int_land_shiftRight (a b : Int) (j : Nat) :
    Int.land a b >>> j = Int.land (a >>> j) (b >>> j) := by
  cases a with
  | ofNat m =>
    cases b with
    | ofNat n =>
      show ((m &&& n : Nat) : Int) >>> j = (((m >>> j) &&& (n >>> j) : Nat) : Int)
      rw [← nat_and_shiftRight]; rfl
    | negSucc n =>
      show ((Nat.ldiff m n : Nat) : Int) >>> j = ((Nat.ldiff (m >>> j) (n >>> j) : Nat) : Int)
      rw [← nat_ldiff_shiftRight]; rfl
  | negSucc m =>
    cases b with
    | ofNat n =>
      show ((Nat.ldiff n m : Nat) : Int) >>> j = ((Nat.ldiff (n >>> j) (m >>> j) : Nat) : Int)
      rw [← nat_ldiff_shiftRight]; rfl
    | negSucc n =>
      show Int.negSucc ((m ||| n) >>> j) = Int.negSucc ((m >>> j) ||| (n >>> j))
      rw [nat_or_shiftRight]

/-- The bits of `2^k - 1` that `n` does not have. -/
theorem nat_ldiff_mask (k n : Nat) : Nat.ldiff (2 ^ k - 1) n = 2 ^ k - (n % 2 ^ k + 1) := by
  apply Nat.eq_of_testBit_eq
  intro i
  rw [Nat.testBit_two_pow_sub_succ (Nat.mod_lt _ (Nat.two_pow_pos k))]
  simp only [Nat.testBit_ldiff, Nat.testBit_two_pow_sub_one, Nat.testBit_mod_two_pow]
  cases decide (i < k) <;> simp

/-- Masking an integer with `2^k - 1` is the remainder modulo `2^k`. -/
theorem int_land_mask (s : Int) (k : Nat) :
    Int.land s ((2 ^ k - 1 : Nat) : Int) = s % 2 ^ k := by
  cases s with
  | ofNat n =>
    show ((n &&& (2 ^ k - 1) : Nat) : Int) = _
    rw [Nat.and_pow_two_sub_one_eq_mod]
    simp
  | negSucc n =>
    show ((Nat.ldiff (2 ^ k - 1) n : Nat) : Int) = _
    rw [nat_ldiff_mask]
    have h1 : n % 2 ^ k < 2 ^ k := Nat.mod_lt _ (Nat.two_pow_pos k)
    have h3 : ((2:Int) ^ k) = ((2 ^ k : Nat) : Int) := by simp
    rw [h3, Int.negSucc_emod n (by exact_mod_cast Nat.two_pow_pos k)]
    have h4 : ((n : Int) % ((2 ^ k : Nat) : Int)) = ((n % 2 ^ k : Nat) : Int) := by simp
    rw [h4]
    omega

/-- The integer `-1` has all bits set. -/
theorem int_land_neg_one (x : Int) : Int.land x (-1) = x := by
  cases x with
  | ofNat m =>
    show ((Nat.ldiff m 0 : Nat) : Int) = _
    congr 1
    apply Nat.eq_of_testBit_eq
    intro i
    simp [Nat.testBit_ldiff]
  | negSucc m =>
    show Int.negSucc (m ||| 0) = _
    simp

/-- The low byte of an integer. -/
theorem land_0xff (s : Int) : Int.land s 0xff = s % 256 := int_land_mask s 8
/-- The low seven bits of an integer. -/
theorem land_0x7f (s : Int) : Int.land s 0x7f = s % 128 := int_land_mask s 7
/-- The low sixteen bits of an integer. -/
theorem land_0xffff (s : Int) : Int.land s 0xffff = s % 65536 := int_land_mask s 16

/-- The macro `WEXITSTATUS` takes bits 8 to 15 of the status. -/
theorem WEXITSTATUS_eq (s : Int) : WEXITSTATUS s = (s / 256) % 256 := by
  unfold WEXITSTATUS
  rw [int_land_shiftRight]
  have : ((0xff00 : Int) >>> (8:Nat)) = 0xff := by decide
  rw [this, land_0xff, Int.shiftRight_eq_div_pow]
  norm_num

/-- The local `ptrace_event` is bits 16 to 23 of the status. -/
theorem ptrace_event_eq (s : Int) : ptrace_event s = (s / 65536) % 256 := by
  unfold ptrace_event SIGTRAP
  rw [int_land_shiftRight, int_land_shiftRight]
  have h1 : ((~~~(5 : Int)) >>> (8:Nat)) = -1 := by decide
  have h2 : ((0xffff : Int) >>> (8:Nat)) = 0xff := by decide
  rw [h1, h2, int_land_neg_one, land_0xff, Int.shiftRight_eq_div_pow, Int.shiftRight_eq_div_pow]
  omega

/-! ## The translation of wait statuses -/

/-- The macro `WTERMSIG` takes the low seven bits of the status. -/
theorem WTERMSIG_eq (s : Int) : WTERMSIG s = s % 128 := land_0x7f s

/-- The macro `WIFSTOPPED` tests that the low byte of the status is `0x7f`. -/
theorem WIFSTOPPED_iff (s : Int) : WIFSTOPPED s = true ↔ s % 256 = 127 := by
  unfold WIFSTOPPED
  rw [land_0xff]
  simp

/-- The macro `WIFEXITED` tests that the low seven bits of the status are zero. -/
theorem WIFEXITED_iff (s : Int) : WIFEXITED s = true ↔ s % 128 = 0 := by
  unfold WIFEXITED
  rw [WTERMSIG_eq]
  simp

/-- A stopped status is neither an exit nor a death by signal. -/
theorem not_exited_of_stopped (s : Int) (h : WIFSTOPPED s = true) :
    WIFEXITED s = false ∧ WIFSIGNALED s = false := by
  rw [WIFSTOPPED_iff] at h
  have h7 : s % 128 = 127 := by omega
  constructor
  · have := WIFEXITED_iff s
    cases hx : WIFEXITED s
    · rfl
    · rw [hx] at this; have := this.mp rfl; omega
  · unfold WIFSIGNALED
    rw [land_0x7f, h7]
    decide

/-- The chain of tests of `stop_reason_for_wait_status` on a stopped tracee. -/
theorem stop_reason_of_stopped (s : Int) (b : Bool) (h : WIFSTOPPED s = true) :
    stop_reason_for_wait_status s b =
      if WSTOPSIG s = Int.lor SIGTRAP 0x80 then
        (if b then SYSCALL_EXIT else SYSCALL_ENTRY)
      else if WSTOPSIG s = SIGTRAP then
        if ptrace_event s = 0 then SIGNALED
        else if ptrace_event s = PTRACE_EVENT_FORK ∨ ptrace_event s = PTRACE_EVENT_VFORK
            ∨ ptrace_event s = PTRACE_EVENT_CLONE then FORKED
        else NOT_STOPPED
      else SIGNALED := by
  obtain ⟨h1, h2⟩ := not_exited_of_stopped s h
  unfold stop_reason_for_wait_status
  simp [h1, h2, h]

/-- C1: every syscall-stop status (a stop whose stop signal is
`SIGTRAP | 0x80`) is translated to `SYSCALL_ENTRY` when `in_syscall` is false
and to `SYSCALL_EXIT` when it is true. -/
theorem syscall_stop_entry_exit (status : Int)
    (hstopped : WIFSTOPPED status = true)
    (hsig : WSTOPSIG status = Int.lor SIGTRAP 0x80) :
    stop_reason_for_wait_status status false = SYSCALL_ENTRY
      ∧ stop_reason_for_wait_status status true = SYSCALL_EXIT := by
  simp [stop_reason_of_stopped status _ hstopped, hsig]

theorem syscall_stop_entry_exit_witness :
    WIFSTOPPED 0x857f = true ∧ WSTOPSIG 0x857f = Int.lor SIGTRAP 0x80
      ∧ stop_reason_for_wait_status 0x857f false = SYSCALL_ENTRY
      ∧ stop_reason_for_wait_status 0x857f true = SYSCALL_EXIT :=
  ⟨by decide, by decide, syscall_stop_entry_exit 0x857f (by decide) (by decide)⟩

/-- C2: a status that encodes a normal exit (low seven bits zero) or a death
by an unhandled signal (`WIFSIGNALED`) is translated to `EXITED`, whatever
`in_syscall` is. -/
theorem exit_or_kill_is_EXITED (status : Int) (in_syscall : Bool)
    (h : Int.land status 0x7f = 0 ∨ WIFSIGNALED status = true) :
    stop_reason_for_wait_status status in_syscall = EXITED := by
  unfold stop_reason_for_wait_status
  rcases h with h | h
  · have : WIFEXITED status = true := by
      unfold WIFEXITED WTERMSIG
      simp [h]
    simp [this]
  · simp [h]

theorem exit_or_kill_is_EXITED_witness :
    (Int.land 0x0100 0x7f = 0 ∨ WIFSIGNALED 0x0100 = true)
      ∧ (Int.land 0x0009 0x7f = 0 ∨ WIFSIGNALED 0x0009 = true)
      ∧ stop_reason_for_wait_status 0x0100 true = EXITED
      ∧ stop_reason_for_wait_status 0x0009 false = EXITED :=
  ⟨Or.inl (by decide), Or.inr (by decide),
   exit_or_kill_is_EXITED 0x0100 true (Or.inl (by decide)),
   exit_or_kill_is_EXITED 0x0009 false (Or.inr (by decide))⟩

/-- C3, as stated, fails: status `0x4057f` is a stop with stop signal
`SIGTRAP` whose event tag is `4` (`PTRACE_EVENT_EXEC`), neither a syscall-stop
nor a fork, vfork or clone event, and it is translated to `NOT_STOPPED`. -/
theorem other_stop_not_SIGNALED :
    WIFSTOPPED 0x4057f = true
      ∧ WSTOPSIG 0x4057f ≠ Int.lor SIGTRAP 0x80
      ∧ ¬ (WSTOPSIG 0x4057f = SIGTRAP
            ∧ ((0x4057f : Int) >>> (16 : Nat) = PTRACE_EVENT_FORK
                ∨ (0x4057f : Int) >>> (16 : Nat) = PTRACE_EVENT_VFORK
                ∨ (0x4057f : Int) >>> (16 : Nat) = PTRACE_EVENT_CLONE))
      ∧ stop_reason_for_wait_status 0x4057f false = NOT_STOPPED
      ∧ stop_reason_for_wait_status 0x4057f true = NOT_STOPPED := by
  have hs : WIFSTOPPED 0x4057f = true := by decide
  have he : ptrace_event 0x4057f = 4 := by rw [ptrace_event_eq]; decide
  have hw : WSTOPSIG 0x4057f = 5 := by decide
  refine ⟨hs, by decide, by decide, ?_, ?_⟩ <;>
    · rw [stop_reason_of_stopped _ _ hs, he, hw]
      decide

/-- C3, amended: a stop that is not a syscall-stop is translated to `SIGNALED`
when its stop signal is not `SIGTRAP` or its event byte (bits 16 to 23 of the
status) is zero, whatever `in_syscall` is; a stop with stop signal `SIGTRAP`
whose event byte is neither zero nor the fork, vfork or clone event is
translated to `NOT_STOPPED`. -/
theorem other_stop_SIGNALED (status : Int) (in_syscall : Bool)
    (hstopped : WIFSTOPPED status = true)
    (hsig : WSTOPSIG status ≠ Int.lor SIGTRAP 0x80) :
    ((WSTOPSIG status ≠ SIGTRAP ∨ Int.land (status >>> (16 : Nat)) 0xff = 0) →
        stop_reason_for_wait_status status in_syscall = SIGNALED)
      ∧ (WSTOPSIG status = SIGTRAP →
          Int.land (status >>> (16 : Nat)) 0xff ≠ 0 →
          Int.land (status >>> (16 : Nat)) 0xff ≠ PTRACE_EVENT_FORK →
          Int.land (status >>> (16 : Nat)) 0xff ≠ PTRACE_EVENT_VFORK →
          Int.land (status >>> (16 : Nat)) 0xff ≠ PTRACE_EVENT_CLONE →
          stop_reason_for_wait_status status in_syscall = NOT_STOPPED) := by
  have hev : Int.land (status >>> (16 : Nat)) 0xff = ptrace_event status := by
    rw [ptrace_event_eq, land_0xff, Int.shiftRight_eq_div_pow]
    norm_num
  rw [stop_reason_of_stopped status _ hstopped, hev, if_neg hsig]
  constructor
  · intro h
    rcases h with h | h
    · rw [if_neg h]
    · by_cases h5 : WSTOPSIG status = SIGTRAP
      · rw [if_pos h5, if_pos h]
      · rw [if_neg h5]
  · intro h5 h0 h1 h2 h3
    rw [if_pos h5, if_neg h0, if_neg (by simp [h1, h2, h3])]

theorem other_stop_SIGNALED_witness :
    WIFSTOPPED 0x137f = true ∧ WSTOPSIG 0x137f ≠ Int.lor SIGTRAP 0x80
      ∧ stop_reason_for_wait_status 0x137f false = SIGNALED
      ∧ stop_reason_for_wait_status 0x7057f true = NOT_STOPPED :=
  ⟨by decide, by decide,
   (other_stop_SIGNALED 0x137f false (by decide) (by decide)).1 (Or.inl (by decide)),
   (other_stop_SIGNALED 0x7057f true (by decide) (by decide)).2 (by decide) (by decide)
     (by decide) (by decide) (by decide)⟩

/-- C4: a stop with stop signal exactly `SIGTRAP` whose event tag (the status
shifted right by 16) is the fork, vfork or clone event is translated to
`FORKED`, whatever `in_syscall` is, and the extraction
`(((status>>8) & 0xffff) & ~SIGTRAP) >> 8` yields exactly that tag. -/
theorem fork_event_is_FORKED (status : Int) (in_syscall : Bool)
    (hstopped : WIFSTOPPED status = true)
    (hsig : WSTOPSIG status = SIGTRAP)
    (hevent : status >>> (16 : Nat) = PTRACE_EVENT_FORK
      ∨ status >>> (16 : Nat) = PTRACE_EVENT_VFORK
      ∨ status >>> (16 : Nat) = PTRACE_EVENT_CLONE) :
    stop_reason_for_wait_status status in_syscall = FORKED
      ∧ ptrace_event status = status >>> (16 : Nat) := by
  have hev : ptrace_event status = status >>> (16 : Nat) := by
    rw [ptrace_event_eq]
    rw [Int.shiftRight_eq_div_pow] at hevent ⊢
    unfold PTRACE_EVENT_FORK PTRACE_EVENT_VFORK PTRACE_EVENT_CLONE at hevent
    norm_num at hevent ⊢
    omega
  refine ⟨?_, hev⟩
  rw [stop_reason_of_stopped status _ hstopped, hev]
  have h85 : SIGTRAP ≠ Int.lor SIGTRAP 0x80 := by decide
  rcases hevent with h | h | h <;> rw [h] <;> simp [hsig, h85] <;> decide

theorem fork_event_is_FORKED_witness :
    WIFSTOPPED 0x1057f = true ∧ WSTOPSIG 0x1057f = SIGTRAP
      ∧ (0x1057f : Int) >>> (16 : Nat) = PTRACE_EVENT_FORK
      ∧ stop_reason_for_wait_status 0x1057f true = FORKED
      ∧ ptrace_event 0x1057f = (0x1057f : Int) >>> (16 : Nat) :=
  ⟨by decide, by decide, by decide,
   fork_event_is_FORKED 0x1057f true (by decide) (by decide) (Or.inl (by decide))⟩

/-! ## Sequencing and the calls that do not recurse -/

section

variable {R : Type}

/-- A continuation that only computes a result leaves object and operating system alone. -/
theorem Outcome.bind_pure_self {α β : Type} (o : Outcome R α) (g : α → tracer R → OS → Result β) :
    (o.bind fun a t os => ⟨g a t os, t, os⟩).self = o.self
      ∧ (o.bind fun a t os => ⟨g a t os, t, os⟩).os = o.os := by
  unfold Outcome.bind
  cases o.result <;> simp

/-- A sequence that returns is made of two calls that return. -/
theorem Outcome.bind_ok {α β : Type} (o : Outcome R α) (k : α → tracer R → OS → Outcome R β)
    (b : β) (h : (o.bind k).result = Result.ok b) :
    ∃ a, o.result = Result.ok a ∧ (k a o.self o.os).result = Result.ok b := by
  unfold Outcome.bind at h
  cases hr : o.result with
  | ok a => rw [hr] at h; exact ⟨a, rfl, h⟩
  | throw e => rw [hr] at h; simp at h
  | blocked => rw [hr] at h; simp at h
  | undefined => rw [hr] at h; simp at h
  | out_of_fuel => rw [hr] at h; simp at h

/-- Sequencing after a call that returned. -/
theorem Outcome.bind_of_ok {α β : Type} (o : Outcome R α) (k : α → tracer R → OS → Outcome R β)
    (a : α) (h : o.result = Result.ok a) : o.bind k = k a o.self o.os := by
  unfold Outcome.bind
  rw [h]

/-- Sequencing after a call that did not return. -/
theorem Outcome.bind_of_not_ok {α β : Type} (o : Outcome R α)
    (k : α → tracer R → OS → Outcome R β) (h : ∀ a, o.result ≠ Result.ok a) :
    (o.bind k).self = o.self ∧ (o.bind k).os = o.os
      ∧ (∀ b, (o.bind k).result ≠ Result.ok b)
      ∧ ((o.bind k).result = Result.out_of_fuel ↔ o.result = Result.out_of_fuel)
      ∧ ((o.bind k).result = Result.undefined ↔ o.result = Result.undefined) := by
  unfold Outcome.bind
  cases hr : o.result with
  | ok a => exact absurd hr (h a)
  | throw e => simp
  | blocked => simp
  | undefined => simp
  | out_of_fuel => simp

/-- Sequencing is associative. -/
theorem Outcome.bind_assoc {α β γ : Type} (o : Outcome R α)
    (k1 : α → tracer R → OS → Outcome R β) (k2 : β → tracer R → OS → Outcome R γ) :
    (o.bind k1).bind k2 = o.bind fun a t os => (k1 a t os).bind k2 := by
  unfold Outcome.bind
  cases o.result <;> rfl

/-- Sequencing after a call that reached the recursion bound. -/
theorem Outcome.bind_out_of_fuel {α β : Type} (o : Outcome R α)
    (k : α → tracer R → OS → Outcome R β) (h : o.result = Result.out_of_fuel) :
    (o.bind k).result = Result.out_of_fuel := by
  unfold Outcome.bind
  rw [h]

/-- The result that ends the retry loop is one of the scripted results. -/
theorem waitpid_retry_mem (pid : Int) (rs : List waitpid_result) (calls : List os_call)
    (r : waitpid_result) (h : (waitpid_retry pid rs calls).1 = some r) : r ∈ rs := by
  induction rs generalizing calls with
  | nil => simp [waitpid_retry] at h
  | cons r0 rs ih =>
    simp only [waitpid_retry] at h
    split_ifs at h with hc
    · exact List.mem_cons_of_mem _ (ih _ h)
    · simp only [Option.some.injEq] at h
      rw [← h]
      exact List.mem_cons_self _ _

/-- Number of scripted `waitpid` results left. -/
theorem waitpid_retry_length (pid : Int) (rs : List waitpid_result) (calls : List os_call) :
    (waitpid_retry pid rs calls).2.1.length ≤ rs.length
      ∧ (∀ r, (waitpid_retry pid rs calls).1 = some r →
          (waitpid_retry pid rs calls).2.1.length < rs.length) := by
  induction rs generalizing calls with
  | nil => simp [waitpid_retry]
  | cons r rs ih =>
    simp only [waitpid_retry]
    split_ifs with h
    · have := ih (calls ++ [os_call.waitpid pid])
      constructor
      · simp only [List.length_cons]; omega
      · intro r1 h1
        have := this.2 r1 h1
        simp only [List.length_cons]; omega
    · simp

/-- A `ptrace` call leaves the scripted `waitpid` results alone. -/
theorem OS.ptrace_waitpid_results (os : OS) (rq : ptrace_request) (pid data : Int) :
    (os.ptrace rq pid data).2.waitpid_results = os.waitpid_results := by
  unfold OS.ptrace
  split <;> rfl

/-- The call `resume` leaves the scripted `waitpid` results alone. -/
theorem resume_os (until_ : stop_reason) (t : tracer R) (os : OS) :
    (resume until_ t os).os.waitpid_results = os.waitpid_results := by
  unfold resume tracer_ensure_invariants
  split_ifs <;> rfl

/-- The call `resume` changes nothing or leaves the tracee running. -/
theorem resume_tracee (until_ : stop_reason) (t : tracer R) (os : OS) :
    (resume until_ t os).self = t ∨ (resume until_ t os).self.tracee.stop_reason = NOT_STOPPED := by
  unfold resume tracer_ensure_invariants
  split_ifs <;> simp

/-- The call `resume` returns or throws. -/
theorem resume_not_out_of_fuel (until_ : stop_reason) (t : tracer R) (os : OS) :
    (resume until_ t os).result ≠ Result.out_of_fuel
      ∧ (resume until_ t os).result ≠ Result.undefined := by
  unfold resume tracer_ensure_invariants
  split_ifs <;> simp

/-- The translation yields `SYSCALL_ENTRY` only with `in_syscall` false and `SYSCALL_EXIT` only with `in_syscall` true. -/
theorem syscall_stop_in_syscall (status : Int) (b : Bool) :
    (stop_reason_for_wait_status status b = SYSCALL_ENTRY → b = false)
      ∧ (stop_reason_for_wait_status status b = SYSCALL_EXIT → b = true) := by
  unfold stop_reason_for_wait_status
  cases b <;> split_ifs <;> simp_all

/-- The relation between `stop_reason` and `in_syscall` that `wait` maintains. -/
theorem tracee_after_stop_inv (te : tracee R) (status : Int) :
    ((tracee_after_stop te status).stop_reason = SYSCALL_ENTRY →
        (tracee_after_stop te status).in_syscall = true)
      ∧ ((tracee_after_stop te status).stop_reason = SYSCALL_EXIT →
        (tracee_after_stop te status).in_syscall = false) := by
  have h := syscall_stop_in_syscall status te.in_syscall
  unfold tracee_after_stop
  constructor
  · intro h1
    simp only [] at h1 ⊢
    rw [if_pos (Or.inl h1), h.1 h1]
    rfl
  · intro h1
    simp only [] at h1 ⊢
    rw [if_pos (Or.inr h1), h.2 h1]
    rfl

/-- The call `resume` maintains the relation between `stop_reason` and `in_syscall`. -/
theorem resume_inv (until_ : stop_reason) (t : tracer R) (os : OS)
    (h : (t.tracee.stop_reason = SYSCALL_ENTRY → t.tracee.in_syscall = true)
      ∧ (t.tracee.stop_reason = SYSCALL_EXIT → t.tracee.in_syscall = false)) :
    ((resume until_ t os).self.tracee.stop_reason = SYSCALL_ENTRY →
        (resume until_ t os).self.tracee.in_syscall = true)
      ∧ ((resume until_ t os).self.tracee.stop_reason = SYSCALL_EXIT →
          (resume until_ t os).self.tracee.in_syscall = false) := by
  rcases resume_tracee until_ t os with h1 | h1
  · rw [h1]; exact h
  · rw [h1]; simp

/-! ## `resume` -/

/-- C6: `resume(until)` throws, leaving the tracer as it was and sending no
request, when the tracee is uninitialised (`process_id = -1`), when
`stop_reason = NOT_STOPPED` or when `until = NOT_STOPPED`; otherwise it
returns, the one request it sends is `ptrace_request_for_stop_reason(until)`
for the process id of the tracee, and it leaves `registers_valid = false` and
`stop_reason = NOT_STOPPED` with `process_id`, `status`, `in_syscall`, the
registers and the children unchanged. -/
theorem resume_frame (until_ : stop_reason) (t : tracer R) (os : OS) :
    ((t.tracee.process_id = -1 ∨ t.tracee.stop_reason = NOT_STOPPED ∨ until_ = NOT_STOPPED) →
        (∃ e, (resume until_ t os).result = Result.throw e)
        ∧ (resume until_ t os).self = t
        ∧ (resume until_ t os).os = os)
    ∧ (¬ (t.tracee.process_id = -1 ∨ t.tracee.stop_reason = NOT_STOPPED ∨ until_ = NOT_STOPPED) →
        (resume until_ t os).result = Result.ok ()
        ∧ (resume until_ t os).os.calls = os.calls ++
            [os_call.ptrace (ptrace_request_for_stop_reason until_) t.tracee.process_id 0]
        ∧ (resume until_ t os).os.waitpid_results = os.waitpid_results
        ∧ (resume until_ t os).os.ptrace_results = os.ptrace_results
        ∧ (resume until_ t os).self.tracee.registers_valid = false
        ∧ (resume until_ t os).self.tracee.stop_reason = NOT_STOPPED
        ∧ (resume until_ t os).self.tracee.process_id = t.tracee.process_id
        ∧ (resume until_ t os).self.tracee.status = t.tracee.status
        ∧ (resume until_ t os).self.tracee.in_syscall = t.tracee.in_syscall
        ∧ (resume until_ t os).self.tracee.registers = t.tracee.registers
        ∧ (resume until_ t os).self._children = t._children) := by
  unfold resume tracer_ensure_invariants
  constructor
  · intro h
    split_ifs with h1 h2 h3
    · exact ⟨⟨_, rfl⟩, rfl, rfl⟩
    · exact ⟨⟨_, rfl⟩, rfl, rfl⟩
    · exact ⟨⟨_, rfl⟩, rfl, rfl⟩
    · tauto
  · intro h
    push_neg at h
    rw [if_neg h.1, if_neg h.2.1, if_neg h.2.2]
    simp

theorem resume_frame_witness :
    (resume NOT_STOPPED stopped_tracer idle_os).self = stopped_tracer
      ∧ (resume NOT_STOPPED stopped_tracer idle_os).os = idle_os
      ∧ (resume SYSCALL_ENTRY stopped_tracer idle_os).result = Result.ok ()
      ∧ (resume SYSCALL_ENTRY stopped_tracer idle_os).os.calls
          = [os_call.ptrace PTRACE_SYSCALL 100 0]
      ∧ (resume SYSCALL_ENTRY stopped_tracer idle_os).self.tracee.stop_reason = NOT_STOPPED :=
  have h1 := (resume_frame NOT_STOPPED stopped_tracer idle_os).1 (Or.inr (Or.inr rfl))
  have h2 := (resume_frame SYSCALL_ENTRY stopped_tracer idle_os).2 (by decide)
  ⟨h1.2.1, h1.2.2, h2.1, h2.2.1, h2.2.2.2.2.2.1⟩

end

/-! ## `wait` and the helpers it reaches -/

section

variable {R : Type} [Inhabited R]

/-- The call `_handle_fork` leaves the tracee record of the parent alone. -/
theorem _handle_fork_tracee (t : tracer R) (os : OS) (f : Nat) :
    (_handle_fork f t os).self.tracee = t.tracee := by
  cases f with
  | zero => simp [_handle_fork]
  | succ f =>
    simp only [_handle_fork, tracer_ensure_invariants]
    split_ifs <;> simp

/-- What a `wait` does to the tracee record: nothing, unless the operating
system reported a status of the tracee that is translated to a stop. -/
theorem wait_fuel_cases (f : Nat) (t : tracer R) (os : OS) :
    ((wait_fuel f t os).self.tracee = t.tracee ∧ ∀ s, (wait_fuel f t os).result ≠ Result.ok s)
    ∨ (∃ status, (∃ r ∈ os.waitpid_results, r.ret = t.tracee.process_id ∧ r.status = status)
        ∧ t.tracee.process_id ≠ -1 ∧ t.tracee.stop_reason = NOT_STOPPED
        ∧ stop_reason_for_wait_status status t.tracee.in_syscall ≠ NOT_STOPPED
        ∧ (wait_fuel f t os).self.tracee = tracee_after_stop t.tracee status
        ∧ ∀ s, (wait_fuel f t os).result = Result.ok s →
            s = stop_reason_for_wait_status status t.tracee.in_syscall) := by
  cases f with
  | zero => left; simp [wait_fuel]
  | succ f =>
    simp only [wait_fuel, tracer_ensure_invariants]
    by_cases hpid : t.tracee.process_id = -1
    · left; simp [hpid]
    by_cases hst : t.tracee.stop_reason = NOT_STOPPED
    swap
    · left; simp [hpid, hst]
    simp only [hpid, hst, if_false, ne_eq, not_true_eq_false]
    rcases hw : waitpid_retry t.tracee.process_id os.waitpid_results os.calls with ⟨_ | r, rs, calls⟩
    · left; simp
    simp only []
    by_cases hret : r.ret = t.tracee.process_id
    swap
    · left
      simp only [hret, not_false_eq_true, if_true]
      split_ifs <;> simp_all
    simp only [hret, not_true_eq_false, if_false]
    by_cases hns : stop_reason_for_wait_status r.status t.tracee.in_syscall = NOT_STOPPED
    · left; simp [hns]
    right
    have hmem : r ∈ os.waitpid_results := waitpid_retry_mem _ _ _ r (by rw [hw])
    refine ⟨r.status, ⟨r, hmem, hret, rfl⟩, by simp, by simp, hns, ?_⟩
    simp only [hns, if_false]
    by_cases hsys : stop_reason_for_wait_status r.status t.tracee.in_syscall = SYSCALL_ENTRY
        ∨ stop_reason_for_wait_status r.status t.tracee.in_syscall = SYSCALL_EXIT
    · simp only [hsys, if_true]
      simp [tracee_after_stop, hsys]
    simp only [hsys, if_false]
    by_cases hfk : stop_reason_for_wait_status r.status t.tracee.in_syscall = FORKED
    · simp only [hfk, if_true]
      constructor
      · rw [(Outcome.bind_pure_self _ _).1, _handle_fork_tracee]
        simp [tracee_after_stop, hfk]
      · intro s hs
        obtain ⟨a, _, h2⟩ := Outcome.bind_ok _ _ _ hs
        simp only [Result.ok.injEq] at h2
        rw [← h2, _handle_fork_tracee]
    · simp only [hfk, if_false]
      simp [tracee_after_stop, hsys]

/-- The scripted `waitpid` results never grow, and a `wait` that returns
has consumed one. -/
theorem script_length (f : Nat) :
    (∀ (t : tracer R) (os : OS),
        (wait_fuel f t os).os.waitpid_results.length ≤ os.waitpid_results.length
        ∧ ∀ s, (wait_fuel f t os).result = Result.ok s →
            (wait_fuel f t os).os.waitpid_results.length < os.waitpid_results.length)
    ∧ (∀ (t : tracer R) (os : OS),
        (_handle_fork f t os).os.waitpid_results.length ≤ os.waitpid_results.length)
    ∧ (∀ (t : tracer R) (os : OS),
        (_await_sigstop f t os).os.waitpid_results.length ≤ os.waitpid_results.length)
    ∧ (∀ (p : List Int) (t : tracer R) (os : OS),
        (_await_sigstop_loop f p t os).os.waitpid_results.length ≤ os.waitpid_results.length) := by
  induction f with
  | zero => simp [wait_fuel, _handle_fork, _await_sigstop, _await_sigstop_loop]
  | succ f ih =>
    obtain ⟨ihw, ihh, iha, ihp⟩ := ih
    refine ⟨?_, ?_, ?_, ?_⟩
    · intro t os
      simp only [wait_fuel, tracer_ensure_invariants]
      by_cases hpid : t.tracee.process_id = -1
      · simp [hpid]
      by_cases hst : t.tracee.stop_reason = NOT_STOPPED
      swap
      · simp [hpid, hst]
      simp only [hpid, hst, if_false, ne_eq, not_true_eq_false]
      have hlen := waitpid_retry_length t.tracee.process_id os.waitpid_results os.calls
      rcases hw : waitpid_retry t.tracee.process_id os.waitpid_results os.calls with ⟨_ | r, rs, calls⟩
      · rw [hw] at hlen; simpa using hlen.1
      rw [hw] at hlen
      have hlt : rs.length < os.waitpid_results.length := hlen.2 r rfl
      simp only []
      by_cases hret : r.ret = t.tracee.process_id
      swap
      · simp only [hret, not_false_eq_true, if_true]
        split_ifs <;> simp_all
      simp only [hret, not_true_eq_false, if_false]
      split_ifs
      · simp; omega
      · simp; omega
      · rw [(Outcome.bind_pure_self _ _).2]
        exact ⟨le_trans (ihh _ _) (le_of_lt hlt), fun _ _ => lt_of_le_of_lt (ihh _ _) hlt⟩
      · simp; omega
    · intro t os
      simp only [_handle_fork, tracer_ensure_invariants]
      split_ifs
      · simp
      · simp
      · simp [OS.ptrace_waitpid_results]
      · simp only []
        have := iha (tracer.ctor (os.ptrace PTRACE_GETEVENTMSG t.tracee.process_id 0).1.data)
          (os.ptrace PTRACE_GETEVENTMSG t.tracee.process_id 0).2
        rw [OS.ptrace_waitpid_results] at this
        exact this
    · intro t os
      simp only [_await_sigstop, tracer_ensure_invariants]
      split_ifs
      · simp
      · exact ihp _ _ _
    · intro p t os
      simp only [_await_sigstop_loop]
      have hw := ihw t os
      cases hr : (wait_fuel f t os).result with
      | ok s =>
        rw [Outcome.bind_of_ok _ _ s hr]
        have hlt := hw.2 s hr
        split_ifs
        · simp; omega
        · have hres : (resume SIGNALED (wait_fuel f t os).self (wait_fuel f t os).os).os.waitpid_results
              = (wait_fuel f t os).os.waitpid_results := resume_os _ _ _
          cases hr2 : (resume SIGNALED (wait_fuel f t os).self (wait_fuel f t os).os).result with
          | ok u =>
            rw [Outcome.bind_of_ok _ _ u hr2]
            have := ihp (p ++ [WSTOPSIG (wait_fuel f t os).self.tracee.status])
              (resume SIGNALED (wait_fuel f t os).self (wait_fuel f t os).os).self
              (resume SIGNALED (wait_fuel f t os).self (wait_fuel f t os).os).os
            rw [hres] at this
            omega
          | _ =>
            rw [(Outcome.bind_of_not_ok _ _ (by simp [hr2])).2.1, hres]
            omega
        · simp [kill_all]; omega
      | _ =>
        rw [(Outcome.bind_of_not_ok _ _ (by simp [hr])).2.1]
        exact hw.1

/-- The nesting bound is never reached when it exceeds four times the number
of scripted `waitpid` results left. -/
theorem fuel_enough (f : Nat) :
    (∀ (t : tracer R) (os : OS), 4 * os.waitpid_results.length + 1 ≤ f →
        (wait_fuel f t os).result ≠ Result.out_of_fuel)
    ∧ (∀ (t : tracer R) (os : OS), 4 * os.waitpid_results.length + 4 ≤ f →
        (_handle_fork f t os).result ≠ Result.out_of_fuel)
    ∧ (∀ (t : tracer R) (os : OS), 4 * os.waitpid_results.length + 3 ≤ f →
        (_await_sigstop f t os).result ≠ Result.out_of_fuel)
    ∧ (∀ (p : List Int) (t : tracer R) (os : OS), 4 * os.waitpid_results.length + 2 ≤ f →
        (_await_sigstop_loop f p t os).result ≠ Result.out_of_fuel) := by
  induction f with
  | zero =>
    refine ⟨?_, ?_, ?_, ?_⟩ <;> intros <;> omega
  | succ f ih =>
    obtain ⟨ihw, ihh, iha, ihp⟩ := ih
    refine ⟨?_, ?_, ?_, ?_⟩
    · intro t os hf
      simp only [wait_fuel, tracer_ensure_invariants]
      by_cases hpid : t.tracee.process_id = -1
      · simp [hpid]
      by_cases hst : t.tracee.stop_reason = NOT_STOPPED
      swap
      · simp [hpid, hst]
      simp only [hpid, hst, if_false, ne_eq, not_true_eq_false]
      have hlen := waitpid_retry_length t.tracee.process_id os.waitpid_results os.calls
      rcases hw : waitpid_retry t.tracee.process_id os.waitpid_results os.calls with ⟨_ | r, rs, calls⟩
      · simp
      rw [hw] at hlen
      have hlt : rs.length < os.waitpid_results.length := hlen.2 r rfl
      simp only []
      by_cases hret : r.ret = t.tracee.process_id
      swap
      · simp only [hret, not_false_eq_true, if_true]
        split_ifs <;> simp_all
      simp only [hret, not_true_eq_false, if_false]
      split_ifs
      · simp
      · simp
      · intro h
        cases hr : (_handle_fork f
            { t with tracee := { t.tracee with status := r.status, stop_reason := stop_reason_for_wait_status r.status t.tracee.in_syscall } }
            { os with waitpid_results := rs, calls := calls }).result with
        | ok u =>
          rw [Outcome.bind_of_ok _ _ u hr] at h
          simp at h
        | out_of_fuel =>
          refine ihh _ _ ?_ hr
          simp only []
          omega
        | _ =>
          rw [(Outcome.bind_of_not_ok _ _ (by simp [hr])).2.2.2.1] at h
          rw [hr] at h
          simp at h
      · simp
    · intro t os hf
      simp only [_handle_fork, tracer_ensure_invariants]
      split_ifs
      · simp
      · simp
      · simp
      · simp only []
        refine iha _ _ ?_
        rw [OS.ptrace_waitpid_results]
        omega
    · intro t os hf
      simp only [_await_sigstop, tracer_ensure_invariants]
      split_ifs
      · simp
      · refine ihp _ _ _ ?_
        omega
    · intro p t os hf
      simp only [_await_sigstop_loop]
      have hw := ihw t os (by omega)
      have hl := (script_length f).1 t os
      cases hr : (wait_fuel f t os).result with
      | ok s =>
        rw [Outcome.bind_of_ok _ _ s hr]
        have hlt := hl.2 s hr
        split_ifs
        · simp
        · have hres : (resume SIGNALED (wait_fuel f t os).self (wait_fuel f t os).os).os.waitpid_results
              = (wait_fuel f t os).os.waitpid_results := resume_os _ _ _
          cases hr2 : (resume SIGNALED (wait_fuel f t os).self (wait_fuel f t os).os).result with
          | ok u =>
            rw [Outcome.bind_of_ok _ _ u hr2]
            refine ihp _ _ _ ?_
            rw [hres]
            omega
          | out_of_fuel =>
            exfalso
            revert hr2
            unfold resume tracer_ensure_invariants
            split_ifs <;> simp
          | _ =>
            rw [ne_eq, (Outcome.bind_of_not_ok _ _ (by simp [hr2])).2.2.2.1, hr2]
            simp
        · simp
      | out_of_fuel => exact absurd hr hw
      | _ =>
        rw [ne_eq, (Outcome.bind_of_not_ok _ _ (by simp [hr])).2.2.2.1, hr]
        simp

/-- The member function `wait` never reaches its nesting bound. -/
theorem wait_fuel_enough (t : tracer R) (os : OS) :
    (wait t os).result ≠ Result.out_of_fuel := by
  unfold wait fuel_for
  exact (fuel_enough _).1 t os (by omega)

/-- A larger nesting bound does not change a call that did not reach it. -/
theorem fuel_mono (f : Nat) :
    (∀ (t : tracer R) (os : OS), (wait_fuel f t os).result ≠ Result.out_of_fuel →
        wait_fuel (f + 1) t os = wait_fuel f t os)
    ∧ (∀ (t : tracer R) (os : OS), (_handle_fork f t os).result ≠ Result.out_of_fuel →
        _handle_fork (f + 1) t os = _handle_fork f t os)
    ∧ (∀ (t : tracer R) (os : OS), (_await_sigstop f t os).result ≠ Result.out_of_fuel →
        _await_sigstop (f + 1) t os = _await_sigstop f t os)
    ∧ (∀ (p : List Int) (t : tracer R) (os : OS),
        (_await_sigstop_loop f p t os).result ≠ Result.out_of_fuel →
        _await_sigstop_loop (f + 1) p t os = _await_sigstop_loop f p t os) := by
  induction f with
  | zero =>
    refine ⟨?_, ?_, ?_, ?_⟩ <;> intros <;>
      simp_all [wait_fuel, _handle_fork, _await_sigstop, _await_sigstop_loop]
  | succ f ih =>
    obtain ⟨ihw, ihh, iha, ihp⟩ := ih
    refine ⟨?_, ?_, ?_, ?_⟩
    · intro t os h
      simp only [wait_fuel, tracer_ensure_invariants] at h ⊢
      by_cases hpid : t.tracee.process_id = -1
      · simp [hpid]
      by_cases hst : t.tracee.stop_reason = NOT_STOPPED
      swap
      · simp [hpid, hst]
      simp only [hpid, hst, if_false, ne_eq, not_true_eq_false] at h ⊢
      rcases hw : waitpid_retry t.tracee.process_id os.waitpid_results os.calls with ⟨_ | r, rs, calls⟩
      · rfl
      rw [hw] at h
      simp only [] at h ⊢
      by_cases hret : r.ret = t.tracee.process_id
      swap
      · simp only [hret, not_false_eq_true, if_true]
      simp only [hret, not_true_eq_false, if_false] at h ⊢
      split_ifs at h ⊢ with h1 h2 h3
      · rfl
      · rfl
      · rw [ihh _ _ (fun hc => h (Outcome.bind_out_of_fuel _ _ hc))]
      · rfl
    · intro t os h
      simp only [_handle_fork, tracer_ensure_invariants] at h ⊢
      split_ifs at h ⊢
      · rfl
      · rfl
      · rfl
      · simp only [] at h ⊢
        rw [iha _ _ h]
    · intro t os h
      simp only [_await_sigstop, tracer_ensure_invariants] at h ⊢
      split_ifs at h ⊢
      · rfl
      · rw [ihp _ _ _ h]
    · intro p t os h
      rw [_await_sigstop_loop] at h
      rw [_await_sigstop_loop]
      conv_rhs => rw [_await_sigstop_loop]
      have hw : (wait_fuel f t os).result ≠ Result.out_of_fuel :=
        fun hc => h (Outcome.bind_out_of_fuel _ _ hc)
      rw [ihw t os hw]
      cases hr : (wait_fuel f t os).result with
      | ok s =>
        simp only [Outcome.bind_of_ok _ _ _ hr] at h ⊢
        split_ifs at h ⊢
        · rfl
        · cases hr2 : (resume SIGNALED (wait_fuel f t os).self (wait_fuel f t os).os).result with
          | ok u =>
            simp only [Outcome.bind_of_ok _ _ _ hr2] at h ⊢
            rw [ihp _ _ _ h]
          | throw e => simp [Outcome.bind, hr2]
          | blocked => simp [Outcome.bind, hr2]
          | undefined => simp [Outcome.bind, hr2]
          | out_of_fuel => simp [Outcome.bind, hr2]
        · rfl
      | throw e => simp [Outcome.bind, hr]
      | blocked => simp [Outcome.bind, hr]
      | undefined => simp [Outcome.bind, hr]
      | out_of_fuel => simp [Outcome.bind, hr]

/-- With any nesting bound above four times the number of scripted `waitpid`
results left, `wait_fuel` is the member function `wait`. -/
theorem wait_fuel_eq_wait (t : tracer R) (os : OS) (f : Nat)
    (hf : 4 * os.waitpid_results.length + 1 ≤ f) : wait_fuel f t os = wait t os := by
  have step : ∀ g k, 4 * os.waitpid_results.length + 1 ≤ g →
      wait_fuel (g + k) t os = wait_fuel g t os := by
    intro g k hg
    induction k with
    | zero => rfl
    | succ k ihk =>
      rw [← ihk]
      exact (fuel_mono (g + k)).1 t os ((fuel_enough (g + k)).1 t os (by omega))
  unfold wait fuel_for
  rcases Nat.le_total f (4 * os.waitpid_results.length + 4) with h | h
  · obtain ⟨k, hk⟩ := Nat.exists_eq_add_of_le h
    rw [hk, step f k hf]
  · obtain ⟨k, hk⟩ := Nat.exists_eq_add_of_le h
    rw [hk, step _ k (by omega)]

/-- A `wait` that returns, returns the `stop_reason` it has stored. -/
theorem wait_ok_stop_reason (t : tracer R) (os : OS) (s : stop_reason)
    (h : (wait t os).result = Result.ok s) : (wait t os).self.tracee.stop_reason = s := by
  unfold wait at h ⊢
  rcases wait_fuel_cases (fuel_for os) t os with ⟨_, h2⟩ | ⟨status, _, _, _, _, h4, h5⟩
  · exact absurd h (h2 s)
  · rw [h4, h5 s h]
    rfl

/-- A `wait` that returns has consumed a scripted `waitpid` result. -/
theorem wait_ok_length (t : tracer R) (os : OS) (s : stop_reason)
    (h : (wait t os).result = Result.ok s) :
    (wait t os).os.waitpid_results.length < os.waitpid_results.length :=
  ((script_length (fuel_for os)).1 t os).2 s h

/-- The loop of `resume_and_wait` never reaches its bound on the rounds when
that exceeds the number of scripted `waitpid` results left. -/
theorem resume_and_wait_loop_fuel_enough (until_ : stop_reason) (n : Int) (f : Nat) :
    ∀ (stops : Int) (t : tracer R) (os : OS), os.waitpid_results.length + 1 ≤ f →
      (resume_and_wait_loop until_ n f stops t os).result ≠ Result.out_of_fuel := by
  induction f with
  | zero => intros; omega
  | succ f ih =>
    intro stops t os hf
    simp only [resume_and_wait_loop]
    cases hr : (resume until_ t os).result with
    | ok u =>
      rw [Outcome.bind_of_ok _ _ u hr]
      cases hr2 : (wait (resume until_ t os).self (resume until_ t os).os).result with
      | ok s =>
        rw [Outcome.bind_of_ok _ _ s hr2]
        have hl := wait_ok_length _ _ s hr2
        rw [resume_os] at hl
        split_ifs
        · simp
        · exact ih _ _ _ (by omega)
        · simp
      | out_of_fuel => exact absurd hr2 (wait_fuel_enough _ _)
      | _ =>
        rw [ne_eq, (Outcome.bind_of_not_ok _ _ (by simp [hr2])).2.2.2.1, hr2]
        simp
    | out_of_fuel => exact absurd hr (resume_not_out_of_fuel _ _ _).1
    | _ =>
      rw [ne_eq, (Outcome.bind_of_not_ok _ _ (by simp [hr])).2.2.2.1, hr]
      simp

/-- The member function `resume_and_wait` never reaches its bound on the
rounds. -/
theorem resume_and_wait_fuel_enough (until_ : stop_reason) (n : Int) (t : tracer R) (os : OS) :
    (resume_and_wait until_ n t os).result ≠ Result.out_of_fuel := by
  unfold resume_and_wait tracer_ensure_invariants
  split_ifs
  · simp
  · exact resume_and_wait_loop_fuel_enough until_ n _ 0 t os (le_refl _)

/-- The loop of `resume_and_wait` with `stops` rounds done and a budget
`n ≥ stops` is the loop of the documentation with `n - stops` skips left. -/
theorem resume_and_wait_loop_eq_spec (until_ : stop_reason) (n : Int) (f : Nat) :
    ∀ (stops : Int) (t : tracer R) (os : OS), os.waitpid_results.length + 1 ≤ f →
      0 ≤ stops → stops ≤ n →
      (n < INT_MAX ∨ (resume_and_wait_loop until_ n f stops t os).result ≠ Result.undefined) →
      resume_and_wait_loop until_ n f stops t os
        = rounds_until_spec until_ (n - stops).toNat t os := by
  induction f with
  | zero => intros; omega
  | succ f ih =>
    intro stops t os hf h0 hn hdef
    have hspec : rounds_until_spec until_ (n - stops).toNat t os
        = (round until_ t os).bind fun stop t1 os1 =>
            if stop = until_ ∨ stop = EXITED ∨ (n - stops).toNat = 0 then
              ⟨Result.ok (decide (stop = until_)), t1, os1⟩
            else rounds_until_spec until_ ((n - stops).toNat - 1) t1 os1 := by
      cases hm : (n - stops).toNat with
      | zero => simp [rounds_until_spec]
      | succ m =>
        simp only [rounds_until_spec]
        congr 1
        funext stop t1 os1
        by_cases h : stop = until_ ∨ stop = EXITED
        · rw [if_pos h, if_pos (by tauto)]
        · rw [if_neg h, if_neg (by simpa using h)]
          rfl
    rw [hspec]
    simp only [resume_and_wait_loop, round] at hdef ⊢
    rw [Outcome.bind_assoc]
    cases hr : (resume until_ t os).result with
    | ok u =>
      simp only [Outcome.bind_of_ok _ _ _ hr] at hdef ⊢
      cases hr2 : (wait (resume until_ t os).self (resume until_ t os).os).result with
      | ok s =>
        simp only [Outcome.bind_of_ok _ _ _ hr2] at hdef ⊢
        have hl := wait_ok_length _ _ s hr2
        rw [resume_os] at hl
        have hs := wait_ok_stop_reason _ _ s hr2
        rw [hs] at hdef ⊢
        have hmax : stops ≠ INT_MAX := by
          intro heq
          rw [if_pos heq] at hdef
          rcases hdef with hdef | hdef
          · omega
          · exact hdef rfl
        rw [if_neg hmax] at hdef ⊢
        by_cases hcont : s ≠ until_ ∧ s ≠ EXITED ∧ (n = -1 ∨ n ≥ stops + 1)
        · rw [if_pos hcont] at hdef ⊢
          have hlt : stops + 1 ≤ n := by
            rcases hcont.2.2 with h | h
            · omega
            · exact h
          rw [if_neg (by
            intro h
            rcases h with h | h | h
            · exact hcont.1 h
            · exact hcont.2.1 h
            · omega)]
          rw [ih (stops + 1) _ _ (by omega) (by omega) hlt hdef]
          congr 1
          omega
        · rw [if_neg hcont]
          rw [if_pos (by
            by_cases h1 : s = until_
            · exact Or.inl h1
            by_cases h2 : s = EXITED
            · exact Or.inr (Or.inl h2)
            right; right
            have : ¬ (n = -1 ∨ n ≥ stops + 1) := fun h => hcont ⟨h1, h2, h⟩
            omega)]
      | throw e => simp [Outcome.bind, hr2]
      | blocked => simp [Outcome.bind, hr2]
      | undefined => simp [Outcome.bind, hr2]
      | out_of_fuel => simp [Outcome.bind, hr2]
    | throw e => simp [Outcome.bind, hr]
    | blocked => simp [Outcome.bind, hr]
    | undefined => simp [Outcome.bind, hr]
    | out_of_fuel => simp [Outcome.bind, hr]

/-- The call `wait` maintains the relation between `stop_reason` and `in_syscall`. -/
theorem wait_inv (t : tracer R) (os : OS)
    (h : (t.tracee.stop_reason = SYSCALL_ENTRY → t.tracee.in_syscall = true)
      ∧ (t.tracee.stop_reason = SYSCALL_EXIT → t.tracee.in_syscall = false)) :
    ((wait t os).self.tracee.stop_reason = SYSCALL_ENTRY → (wait t os).self.tracee.in_syscall = true)
      ∧ ((wait t os).self.tracee.stop_reason = SYSCALL_EXIT →
          (wait t os).self.tracee.in_syscall = false) := by
  unfold wait
  rcases wait_fuel_cases (fuel_for os) t os with ⟨h1, _⟩ | ⟨status, _, _, _, _, h4, _⟩
  · rw [h1]; exact h
  · rw [h4]; exact tracee_after_stop_inv _ _

/-- The loop of `resume_and_wait` maintains the relation between `stop_reason` and `in_syscall`. -/
theorem resume_and_wait_loop_inv (until_ : stop_reason) (n : Int) (f : Nat) :
    ∀ (stops : Int) (t : tracer R) (os : OS),
      ((t.tracee.stop_reason = SYSCALL_ENTRY → t.tracee.in_syscall = true)
        ∧ (t.tracee.stop_reason = SYSCALL_EXIT → t.tracee.in_syscall = false)) →
      (((resume_and_wait_loop until_ n f stops t os).self.tracee.stop_reason = SYSCALL_ENTRY →
          (resume_and_wait_loop until_ n f stops t os).self.tracee.in_syscall = true)
        ∧ ((resume_and_wait_loop until_ n f stops t os).self.tracee.stop_reason = SYSCALL_EXIT →
          (resume_and_wait_loop until_ n f stops t os).self.tracee.in_syscall = false)) := by
  induction f with
  | zero => intro stops t os h; simpa [resume_and_wait_loop] using h
  | succ f ih =>
    intro stops t os h
    have h1 := resume_inv until_ t os h
    have h2 := wait_inv (resume until_ t os).self (resume until_ t os).os h1
    simp only [resume_and_wait_loop]
    cases hr : (resume until_ t os).result with
    | ok u =>
      simp only [Outcome.bind_of_ok _ _ _ hr]
      cases hr2 : (wait (resume until_ t os).self (resume until_ t os).os).result with
      | ok s =>
        simp only [Outcome.bind_of_ok _ _ _ hr2]
        split_ifs
        · exact h2
        · exact ih _ _ _ h2
        · exact h2
      | _ =>
        rw [(Outcome.bind_of_not_ok _ _ (by simp [hr2])).1]
        exact h2
    | _ =>
      rw [(Outcome.bind_of_not_ok _ _ (by simp [hr])).1]
      exact h1

/-! ## The in-syscall bit -/

/-- C5: a `wait` that returns `s` has set `stop_reason` to `s`, which is the
translation of the status the operating system reported for the tracee (now
in `status`) under the `in_syscall` of before, and has flipped `in_syscall`
exactly when `s` is `SYSCALL_ENTRY` or `SYSCALL_EXIT`; and in every tracer
reached from a constructed one by `resume`, `wait` and `resume_and_wait`, a
`stop_reason` of `SYSCALL_ENTRY` comes with `in_syscall = true` and one of
`SYSCALL_EXIT` with `in_syscall = false`. -/
theorem wait_flips_in_syscall :
    (∀ (t : tracer R) (os : OS) (s : stop_reason), (wait t os).result = Result.ok s →
        (∃ r ∈ os.waitpid_results,
            r.ret = t.tracee.process_id ∧ r.status = (wait t os).self.tracee.status)
        ∧ s = stop_reason_for_wait_status (wait t os).self.tracee.status t.tracee.in_syscall
        ∧ (wait t os).self.tracee.stop_reason = s
        ∧ (wait t os).self.tracee.in_syscall
            = (if s = SYSCALL_ENTRY ∨ s = SYSCALL_EXIT then !t.tracee.in_syscall
               else t.tracee.in_syscall))
    ∧ (∀ t : tracer R, Reachable t →
        (t.tracee.stop_reason = SYSCALL_ENTRY → t.tracee.in_syscall = true)
        ∧ (t.tracee.stop_reason = SYSCALL_EXIT → t.tracee.in_syscall = false)) := by
  constructor
  · intro t os s h
    unfold wait at h ⊢
    rcases wait_fuel_cases (fuel_for os) t os with ⟨_, h2⟩ | ⟨status, hmem, _, _, _, h4, h5⟩
    · exact absurd h (h2 s)
    · have hs := h5 s h
      rw [h4]
      have hst : (tracee_after_stop t.tracee status).status = status := rfl
      rw [hst]
      refine ⟨hmem, hs, ?_, ?_⟩
      · rw [hs]; rfl
      · rw [hs]; rfl
  · intro t ht
    induction ht with
    | ctor pid => simp [tracer.ctor]
    | resume until_ os _ ih => exact resume_inv _ _ _ ih
    | wait os _ ih => exact wait_inv _ _ ih
    | resume_and_wait until_ n os _ ih =>
      unfold resume_and_wait tracer_ensure_invariants
      split_ifs
      · exact ih
      · exact resume_and_wait_loop_inv _ _ _ _ _ _ ih

theorem wait_flips_in_syscall_witness :
    (wait (tracer.ctor 100 : tracer Unit) syscall_os).result = Result.ok SYSCALL_ENTRY
      ∧ (wait (tracer.ctor 100 : tracer Unit) syscall_os).self.tracee.status = 0x857f
      ∧ (wait (tracer.ctor 100 : tracer Unit) syscall_os).self.tracee.stop_reason = SYSCALL_ENTRY
      ∧ (wait (tracer.ctor 100 : tracer Unit) syscall_os).self.tracee.in_syscall = true :=
  have h : (wait (tracer.ctor 100 : tracer Unit) syscall_os).result = Result.ok SYSCALL_ENTRY := by
    decide
  have h1 := (wait_flips_in_syscall.1 (tracer.ctor 100 : tracer Unit) syscall_os SYSCALL_ENTRY h)
  have h2 := (wait_flips_in_syscall.2 (wait (tracer.ctor 100 : tracer Unit) syscall_os).self
    (Reachable.wait syscall_os (Reachable.ctor 100)))
  ⟨h, by decide, h1.2.2.1, h2.1 h1.2.2.1⟩

/-! ## `resume_and_wait` -/

/-- C7: for a budget `n ≥ 0`, `resume_and_wait(until, n)` is the loop of its
documentation: rounds `resume(until); wait()` up to the first round whose
observed stop is `until` or `EXITED`, at most `n + 1` of them (at most `n`
intermediate stops are skipped), with value true exactly when the last
observed stop is `until`; with `n = 0` it is exactly one round.  This holds
for every run in which the counter `stops` does not overflow, which takes
`INT_MAX` rounds and a budget of `INT_MAX`. -/
theorem resume_and_wait_rounds (until_ : stop_reason) (n : Int) (t : tracer R) (os : OS)
    (hn : 0 ≤ n)
    (hdef : n < INT_MAX ∨ (resume_and_wait until_ n t os).result ≠ Result.undefined) :
    resume_and_wait until_ n t os = rounds_until_spec until_ n.toNat t os
      ∧ (n = 0 → resume_and_wait until_ n t os
          = (round until_ t os).bind fun stop t1 os1 =>
              ⟨Result.ok (decide (stop = until_)), t1, os1⟩) := by
  have key : resume_and_wait until_ n t os = rounds_until_spec until_ n.toNat t os := by
    unfold resume_and_wait tracer_ensure_invariants at hdef ⊢
    by_cases hpid : t.tracee.process_id = -1
    · rw [if_pos hpid]
      cases n.toNat <;>
        simp [rounds_until_spec, round, resume, tracer_ensure_invariants, hpid, Outcome.bind]
    · rw [if_neg hpid] at hdef ⊢
      have := resume_and_wait_loop_eq_spec until_ n _ 0 t os (le_refl _) (le_refl _) hn hdef
      rw [this]
      simp
  refine ⟨key, ?_⟩
  intro h0
  rw [key, h0]
  rfl

theorem resume_and_wait_rounds_witness :
    resume_and_wait SYSCALL_ENTRY 1 stopped_tracer stop_then_syscall_os
        = rounds_until_spec SYSCALL_ENTRY 1 stopped_tracer stop_then_syscall_os
      ∧ (resume_and_wait SYSCALL_ENTRY 1 stopped_tracer stop_then_syscall_os).result
          = Result.ok true
      ∧ (resume_and_wait SYSCALL_ENTRY 0 stopped_tracer stop_then_syscall_os).result
          = Result.ok false :=
  ⟨(resume_and_wait_rounds SYSCALL_ENTRY 1 stopped_tracer stop_then_syscall_os
      (by decide) (Or.inl (by decide))).1,
   by decide, by decide⟩

/-- C8, as stated, fails: with a budget of `0` and a first observed stop
(`SIGNALED`) that is neither the target `SYSCALL_ENTRY` nor `EXITED`,
`resume_and_wait` returns false after one round: it has sent one resume
request and one `waitpid`, and the second scripted stop is still to come. -/
theorem budget_zero_no_second_round :
    (round SYSCALL_ENTRY stopped_tracer stop_then_syscall_os).result = Result.ok SIGNALED
      ∧ (resume_and_wait SYSCALL_ENTRY 0 stopped_tracer stop_then_syscall_os).result
          = Result.ok false
      ∧ (resume_and_wait SYSCALL_ENTRY 0 stopped_tracer stop_then_syscall_os).os.calls
          = [os_call.ptrace PTRACE_SYSCALL 100 0, os_call.waitpid 100]
      ∧ (resume_and_wait SYSCALL_ENTRY 0 stopped_tracer stop_then_syscall_os).os.waitpid_results
          = [⟨100, 0x857f, 0⟩] := by
  decide

/-- C8, amended: with a budget of `0` there is no extra iteration: when the
first observed stop is neither `until` nor `EXITED`, `resume_and_wait` returns
false with the tracer and the operating system as that one round left them;
it is a budget of `1` that allows the second round. -/
theorem budget_zero_one_round (until_ s : stop_reason) (t : tracer R) (os : OS)
    (hround : (round until_ t os).result = Result.ok s)
    (hs : s ≠ until_ ∧ s ≠ EXITED) :
    resume_and_wait until_ 0 t os = ⟨Result.ok false, (round until_ t os).self, (round until_ t os).os⟩
      ∧ resume_and_wait until_ 1 t os
          = (round until_ (round until_ t os).self (round until_ t os).os).bind
              fun stop t1 os1 => ⟨Result.ok (decide (stop = until_)), t1, os1⟩ := by
  have h0 := (resume_and_wait_loop_eq_spec until_ 0 _ 0 t os (le_refl _) (le_refl _) (le_refl _)
    (Or.inl (by decide)))
  have h1 := (resume_and_wait_loop_eq_spec until_ 1 _ 0 t os (le_refl _) (le_refl _) (by decide)
    (Or.inl (by decide)))
  have hpid : t.tracee.process_id ≠ -1 := by
    intro hpid
    simp [round, resume, tracer_ensure_invariants, hpid, Outcome.bind] at hround
  unfold resume_and_wait tracer_ensure_invariants
  rw [if_neg hpid, if_neg hpid, h0, h1]
  constructor
  · show rounds_until_spec until_ 0 t os = _
    simp only [rounds_until_spec]
    rw [Outcome.bind_of_ok _ _ s hround]
    simp [hs.1]
  · show rounds_until_spec until_ 1 t os = _
    simp only [rounds_until_spec]
    rw [Outcome.bind_of_ok _ _ s hround]
    simp [hs.1, hs.2]

theorem budget_zero_one_round_witness :
    (round SYSCALL_ENTRY stopped_tracer stop_then_syscall_os).result = Result.ok SIGNALED
      ∧ resume_and_wait SYSCALL_ENTRY 0 stopped_tracer stop_then_syscall_os
          = ⟨Result.ok false, (round SYSCALL_ENTRY stopped_tracer stop_then_syscall_os).self,
              (round SYSCALL_ENTRY stopped_tracer stop_then_syscall_os).os⟩ :=
  ⟨by decide,
   (budget_zero_one_round SYSCALL_ENTRY SIGNALED stopped_tracer stop_then_syscall_os
      (by decide) (by decide)).1⟩

/-! ## After the exit of the tracee -/

/-- C9, as stated, fails: on a tracer whose `stop_reason` is `EXITED`,
`resume(SIGNALED)` returns and leaves `stop_reason = NOT_STOPPED`. -/
theorem resume_leaves_EXITED :
    exited_tracer.tracee.stop_reason = EXITED
      ∧ (resume SIGNALED exited_tracer idle_os).result = Result.ok ()
      ∧ (resume SIGNALED exited_tracer idle_os).self.tracee.stop_reason = NOT_STOPPED
      ∧ (resume SIGNALED exited_tracer idle_os).os.calls = [os_call.ptrace PTRACE_CONT 100 0] := by
  decide

/-- C9, amended: `EXITED` is a stopped state like the others.  On an
initialised tracer with `stop_reason = EXITED`, `wait` throws and
`resume(NOT_STOPPED)` throws, both leaving the tracer as it was (so
`stop_reason` stays `EXITED`), while `resume(until)` for every other target
returns, sends its request and takes `stop_reason` from `EXITED` to
`NOT_STOPPED`. -/
theorem resume_from_EXITED (until_ : stop_reason) (t : tracer R) (os : OS)
    (hexited : t.tracee.stop_reason = EXITED) (hpid : t.tracee.process_id ≠ -1) :
    ((wait t os).result = Result.throw tracer_exception.wait_already_stopped
        ∧ (wait t os).self = t ∧ (wait t os).os = os)
    ∧ (until_ = NOT_STOPPED →
        (resume until_ t os).result = Result.throw tracer_exception.resume_until_not_stopped
        ∧ (resume until_ t os).self = t ∧ (resume until_ t os).os = os)
    ∧ (until_ ≠ NOT_STOPPED →
        (resume until_ t os).result = Result.ok ()
        ∧ (resume until_ t os).self.tracee.stop_reason = NOT_STOPPED
        ∧ (resume until_ t os).os.calls = os.calls ++
            [os_call.ptrace (ptrace_request_for_stop_reason until_) t.tracee.process_id 0]) := by
  refine ⟨?_, ?_, ?_⟩
  · unfold wait fuel_for
    simp [wait_fuel, tracer_ensure_invariants, hpid, hexited]
  · intro h
    simp [resume, tracer_ensure_invariants, hpid, hexited, h]
  · intro h
    simp [resume, tracer_ensure_invariants, hpid, hexited, h]

theorem resume_from_EXITED_witness :
    exited_tracer.tracee.stop_reason = EXITED ∧ exited_tracer.tracee.process_id ≠ -1
      ∧ (wait exited_tracer idle_os).self = exited_tracer
      ∧ (resume SYSCALL_EXIT exited_tracer idle_os).self.tracee.stop_reason = NOT_STOPPED :=
  have h := resume_from_EXITED SYSCALL_EXIT exited_tracer idle_os (by decide) (by decide)
  ⟨by decide, by decide, h.1.2.1, (h.2.2 (by decide)).2.1⟩

/-- Whenever the `waitpid` of a `wait` fails with `ECHILD`, the `wait` throws
the ghost-child exception, whatever stop had been observed before; no `wait`
on such an operating system returns. -/
theorem wait_ECHILD_throws (t : tracer R) (os : OS) (r : waitpid_result)
    (rs : List waitpid_result) (calls : List os_call)
    (hw : waitpid_retry t.tracee.process_id os.waitpid_results os.calls = (some r, rs, calls))
    (hret : r.ret ≠ t.tracee.process_id) (herrno : r.errno = ECHILD) :
    (t.tracee.process_id ≠ -1 → t.tracee.stop_reason = NOT_STOPPED →
        (wait t os).result = Result.throw (tracer_exception.ghost_child t.tracee.process_id))
      ∧ ∀ s, (wait t os).result ≠ Result.ok s := by
  unfold wait fuel_for
  simp only [wait_fuel, tracer_ensure_invariants]
  by_cases hpid : t.tracee.process_id = -1
  · simp [hpid]
  by_cases hst : t.tracee.stop_reason = NOT_STOPPED
  swap
  · simp [hpid, hst]
  rw [if_neg hpid, if_neg (by simpa using hst), hw]
  simp [hret, herrno, hst]

/-- C10: the code at the failing input.  The tracer has observed `EXITED` and
the next `waitpid` fails with `ECHILD`.  A `wait` throws "already stopped"
without asking the operating system; after a `resume`, which has overwritten
`stop_reason` with `NOT_STOPPED`, `wait` throws the ghost-child exception
although `EXITED` had been observed; `resume_and_wait` throws it too.  In no
case does `wait` return `EXITED`. -/
theorem wait_ECHILD_after_EXITED :
    exited_tracer.tracee.stop_reason = EXITED
      ∧ (wait exited_tracer echild_os).result
          = Result.throw tracer_exception.wait_already_stopped
      ∧ (wait exited_tracer echild_os).os.calls = []
      ∧ (resume EXITED exited_tracer echild_os).result = Result.ok ()
      ∧ (wait (resume EXITED exited_tracer echild_os).self
            (resume EXITED exited_tracer echild_os).os).result
          = Result.throw (tracer_exception.ghost_child 100)
      ∧ (resume_and_wait SYSCALL_EXIT (-1) exited_tracer echild_os).result
          = Result.throw (tracer_exception.ghost_child 100) := by
  decide

end

/-! ## The order on stop reasons -/

/-- The relation `operator<` is transitive. -/
theorem operator_lt_trans (a b c : stop_reason) (hab : operator_lt a b = true)
    (hbc : operator_lt b c = true) : operator_lt a c = true := by
  cases a <;> cases b <;> cases c <;> simp_all [operator_lt]

/-- Every step of the chain of the specification is in `operator<`. -/
theorem operator_lt_of_step (a b : stop_reason) (h : subsumes_step a b) :
    operator_lt a b = true := by
  cases h <;> rfl

/-- C11: `operator<` is exactly the transitive closure of the chain
`STEPPED < SIGNALED < {SYSCALL_ENTRY, SYSCALL_EXIT} < FORKED`,
`STEPPED < EXITED`; `a < b` implies `a ≠ b`, the relation is transitive and
asymmetric, `SYSCALL_ENTRY` and `SYSCALL_EXIT` are incomparable and
`NOT_STOPPED` is related to nothing. -/
theorem operator_lt_strict_order :
    (∀ a b, operator_lt a b = true ↔ Relation.TransGen subsumes_step a b)
      ∧ (∀ a b, operator_lt a b = true → a ≠ b)
      ∧ (∀ a b c, operator_lt a b = true → operator_lt b c = true → operator_lt a c = true)
      ∧ (∀ a b, operator_lt a b = true → operator_lt b a = false)
      ∧ (operator_lt SYSCALL_ENTRY SYSCALL_EXIT = false
          ∧ operator_lt SYSCALL_EXIT SYSCALL_ENTRY = false)
      ∧ (∀ a, operator_lt NOT_STOPPED a = false ∧ operator_lt a NOT_STOPPED = false) := by
  refine ⟨?_, ?_, operator_lt_trans, ?_, ⟨rfl, rfl⟩, ?_⟩
  · intro a b
    constructor
    · intro h
      have s1 := Relation.TransGen.single subsumes_step.stepped_signaled
      have s2 := Relation.TransGen.single subsumes_step.signaled_entry
      have s3 := Relation.TransGen.single subsumes_step.signaled_exit
      have s4 := Relation.TransGen.single subsumes_step.entry_forked
      have s5 := Relation.TransGen.single subsumes_step.exit_forked
      have s6 := Relation.TransGen.single subsumes_step.stepped_exited
      cases a <;> cases b <;> simp [operator_lt] at h
      · exact s4
      · exact s5
      · exact s2.trans s4
      · exact s2
      · exact s3
      · exact s6
      · exact (s1.trans s2).trans s4
      · exact s1.trans s2
      · exact s1.trans s3
      · exact s1
    · intro h
      induction h with
      | single h => exact operator_lt_of_step _ _ h
      | tail _ h ih => exact operator_lt_trans _ _ _ ih (operator_lt_of_step _ _ h)
  · intro a b h
    cases a <;> cases b <;> simp_all [operator_lt]
  · intro a b h
    cases a <;> cases b <;> simp_all [operator_lt]
  · intro a
    cases a <;> simp [operator_lt]

/-! ## The resume request of a stop reason -/

/-- C12: `ptrace_request_for_stop_reason` maps `STEPPED` to the single-step
request, `SYSCALL_ENTRY` and `SYSCALL_EXIT` to the syscall-stop request,
`SIGNALED` and `EXITED` to the continue request, and it returns the
single-step request exactly for `STEPPED`. -/
theorem ptrace_request_table :
    ptrace_request_for_stop_reason STEPPED = PTRACE_SINGLESTEP
      ∧ ptrace_request_for_stop_reason SYSCALL_ENTRY = PTRACE_SYSCALL
      ∧ ptrace_request_for_stop_reason SYSCALL_EXIT = PTRACE_SYSCALL
      ∧ ptrace_request_for_stop_reason SIGNALED = PTRACE_CONT
      ∧ ptrace_request_for_stop_reason EXITED = PTRACE_CONT
      ∧ (∀ reason, ptrace_request_for_stop_reason reason = PTRACE_SINGLESTEP
          ↔ reason = STEPPED) := by
  refine ⟨rfl, rfl, rfl, rfl, rfl, ?_⟩
  intro reason
  cases reason <;> simp [ptrace_request_for_stop_reason]

/-- C13: the code at the failing input.  For `FORKED`, which has no `case` in
the `switch`, the function returns `PTRACE_DETACH`, not a resume request; the
five other stop reasons than `NOT_STOPPED` get a resume request, and
`PTRACE_DETACH` is returned exactly for `NOT_STOPPED` and `FORKED`. -/
theorem ptrace_request_for_FORKED :
    ptrace_request_for_stop_reason FORKED = PTRACE_DETACH
      ∧ (∀ reason, reason ≠ NOT_STOPPED → reason ≠ FORKED →
          ptrace_request_for_stop_reason reason = PTRACE_SINGLESTEP
            ∨ ptrace_request_for_stop_reason reason = PTRACE_SYSCALL
            ∨ ptrace_request_for_stop_reason reason = PTRACE_CONT)
      ∧ (∀ reason, ptrace_request_for_stop_reason reason = PTRACE_DETACH
          ↔ reason = NOT_STOPPED ∨ reason = FORKED) := by
  refine ⟨rfl, ?_, ?_⟩
  · intro reason h1 h2
    cases reason <;> simp_all [ptrace_request_for_stop_reason]
  · intro reason
    cases reason <;> simp [ptrace_request_for_stop_reason]

/-! ## Single steps -/

/-- The translation of a wait status is never `STEPPED`. -/
theorem stop_reason_for_wait_status_ne_STEPPED (status : Int) (in_syscall : Bool) :
    stop_reason_for_wait_status status in_syscall ≠ STEPPED := by
  unfold stop_reason_for_wait_status
  split_ifs <;> simp

section
variable {R : Type} [Inhabited R]

/-- No `wait` returns `STEPPED`. -/
theorem wait_ne_STEPPED (t : tracer R) (os : OS) : (wait t os).result ≠ Result.ok STEPPED := by
  intro h
  unfold wait at h
  rcases wait_fuel_cases (fuel_for os) t os with ⟨_, h2⟩ | ⟨status, _, _, _, _, _, h5⟩
  · exact h2 _ h
  · exact stop_reason_for_wait_status_ne_STEPPED _ _ (h5 _ h).symm

/-- The loop of `resume_and_wait` with target `STEPPED` returns false when it
returns. -/
theorem resume_and_wait_loop_STEPPED (n : Int) (f : Nat) :
    ∀ (stops : Int) (t : tracer R) (os : OS) (b : Bool),
      (resume_and_wait_loop STEPPED n f stops t os).result = Result.ok b → b = false := by
  induction f with
  | zero => intro stops t os b h; simp [resume_and_wait_loop] at h
  | succ f ih =>
    intro stops t os b h
    simp only [resume_and_wait_loop] at h
    obtain ⟨u, hr, h⟩ := Outcome.bind_ok _ _ _ h
    obtain ⟨s, hr2, h⟩ := Outcome.bind_ok _ _ _ h
    have hs := wait_ok_stop_reason _ _ s hr2
    have hne : s ≠ STEPPED := fun hc => wait_ne_STEPPED _ _ (hc ▸ hr2)
    rw [hs] at h
    split_ifs at h
    · exact ih _ _ _ _ h
    · simp only [Result.ok.injEq] at h
      rw [← h]
      simp [hne]

/-- C19: `stop_reason_for_wait_status` never returns `STEPPED` (the status
`0x057f` of a single-step trap is translated to `SIGNALED`), so no `wait`
returns `STEPPED`, and whenever `resume_and_wait(STEPPED, budget)` returns, it
returns false, for every budget. -/
theorem STEPPED_never_observed :
    (∀ (status : Int) (in_syscall : Bool),
        stop_reason_for_wait_status status in_syscall ≠ STEPPED)
      ∧ (∀ in_syscall : Bool, stop_reason_for_wait_status 0x057f in_syscall = SIGNALED)
      ∧ (∀ (t : tracer R) (os : OS), (wait t os).result ≠ Result.ok STEPPED)
      ∧ (∀ (budget : Int) (t : tracer R) (os : OS) (b : Bool),
          (resume_and_wait STEPPED budget t os).result = Result.ok b → b = false) := by
  refine ⟨stop_reason_for_wait_status_ne_STEPPED, ?_, wait_ne_STEPPED, ?_⟩
  · intro b
    have hs : WIFSTOPPED 0x057f = true := by decide
    have he : ptrace_event 0x057f = 0 := by rw [ptrace_event_eq]; decide
    have hw : WSTOPSIG 0x057f = 5 := by decide
    rw [stop_reason_of_stopped _ _ hs, he, hw]
    cases b <;> decide
  · intro budget t os b h
    unfold resume_and_wait tracer_ensure_invariants at h
    split_ifs at h
    exact resume_and_wait_loop_STEPPED _ _ _ _ _ _ h

end

theorem STEPPED_never_observed_witness :
    (resume_and_wait STEPPED (-1) stopped_tracer stop_then_exit_os).result = Result.ok false
      ∧ false = false :=
  have h1 : (resume_and_wait STEPPED (-1) stopped_tracer stop_then_exit_os).result
      = Result.ok false := by decide
  ⟨h1, STEPPED_never_observed.2.2.2 (-1) stopped_tracer stop_then_exit_os false h1⟩

/-! ## The register cache -/

section
variable {R : Type}

/-- C16: after a `read_registers` or a `write_registers` that returned,
`registers_valid` is true and a following `read_registers` sends no request
to the operating system and returns the cached registers: those just read
(the ones the operating system stored, when it was asked) or those just
written; after a `resume` that returned `registers_valid` is false; and when
the underlying read or write fails, the call throws and leaves
`registers_valid` false. -/
theorem register_cache_coherent :
    (∀ (k : R) (t : tracer R) (os : OS) (regs : R),
        (read_registers k t os).result = Result.ok regs →
        (read_registers k t os).self.tracee.registers_valid = true
        ∧ (t.tracee.registers_valid = false → regs = k
            ∧ (read_registers k t os).os.calls
                = os.calls ++ [os_call.ptrace PTRACE_GETREGSET t.tracee.process_id 0])
        ∧ (t.tracee.registers_valid = true → regs = t.tracee.registers
            ∧ (read_registers k t os).os = os)
        ∧ ∀ k2 : R,
            read_registers k2 (read_registers k t os).self (read_registers k t os).os
              = ⟨Result.ok regs, (read_registers k t os).self, (read_registers k t os).os⟩)
    ∧ (∀ (new_registers : R) (t : tracer R) (os : OS),
        (write_registers new_registers t os).result = Result.ok () →
        (write_registers new_registers t os).self.tracee.registers_valid = true
        ∧ ∀ k2 : R,
            read_registers k2 (write_registers new_registers t os).self
                (write_registers new_registers t os).os
              = ⟨Result.ok new_registers, (write_registers new_registers t os).self,
                  (write_registers new_registers t os).os⟩)
    ∧ (∀ (until_ : stop_reason) (t : tracer R) (os : OS),
        (resume until_ t os).result = Result.ok () →
        (resume until_ t os).self.tracee.registers_valid = false)
    ∧ (∀ (k : R) (t : tracer R) (os : OS),
        t.tracee.process_id ≠ -1 → t.tracee.registers_valid = false →
        (os.ptrace PTRACE_GETREGSET t.tracee.process_id 0).1.ret ≠ 0 →
        (read_registers k t os).result = Result.throw tracer_exception.could_not_read_registers
        ∧ (read_registers k t os).self.tracee.registers_valid = false)
    ∧ (∀ (new_registers : R) (t : tracer R) (os : OS),
        t.tracee.process_id ≠ -1 →
        (os.ptrace PTRACE_SETREGSET t.tracee.process_id 0).1.ret ≠ 0 →
        (write_registers new_registers t os).result
          = Result.throw tracer_exception.could_not_write_registers
        ∧ (write_registers new_registers t os).self.tracee.registers_valid = false) := by
  refine ⟨?_, ?_, ?_, ?_, ?_⟩
  · intro k t os regs h
    have hcalls : (os.ptrace PTRACE_GETREGSET t.tracee.process_id 0).2.calls
        = os.calls ++ [os_call.ptrace PTRACE_GETREGSET t.tracee.process_id 0] := by
      unfold OS.ptrace
      split <;> rfl
    unfold read_registers tracer_ensure_invariants _read_registers_internal at h ⊢
    by_cases hpid : t.tracee.process_id = -1
    · simp [hpid] at h
    cases hv : t.tracee.registers_valid
    · by_cases hret : (os.ptrace PTRACE_GETREGSET t.tracee.process_id 0).1.ret = 0
      · simp [hpid, hv, hret] at h
        subst h
        simp [hpid, hv, hret, hcalls]
      · simp [hpid, hv, hret] at h
    · simp [hpid, hv] at h
      subst h
      simp [hpid, hv]
  · intro new_registers t os h
    unfold write_registers tracer_ensure_invariants _write_registers_internal at h ⊢
    by_cases hpid : t.tracee.process_id = -1
    · simp [hpid] at h
    simp only [hpid, if_false] at h ⊢
    by_cases hret : (os.ptrace PTRACE_SETREGSET t.tracee.process_id 0).1.ret = 0
    · simp [hret, read_registers, tracer_ensure_invariants, hpid]
    · simp [hret] at h
  · intro until_ t os h
    unfold resume tracer_ensure_invariants at h ⊢
    split_ifs at h ⊢
    simp_all
  · intro k t os hpid hv hret
    unfold read_registers tracer_ensure_invariants _read_registers_internal
    simp [hpid, hv, hret]
  · intro new_registers t os hpid hret
    unfold write_registers tracer_ensure_invariants _write_registers_internal
    simp [hpid, hret]

end

theorem register_cache_coherent_witness :
    (read_registers x86_registers x86_tracer registers_os).result = Result.ok x86_registers
      ∧ (read_registers x86_registers x86_tracer registers_os).self.tracee.registers_valid = true
      ∧ read_registers {} (read_registers x86_registers x86_tracer registers_os).self
            (read_registers x86_registers x86_tracer registers_os).os
          = ⟨Result.ok x86_registers, (read_registers x86_registers x86_tracer registers_os).self,
              (read_registers x86_registers x86_tracer registers_os).os⟩ :=
  have h : (read_registers x86_registers x86_tracer registers_os).result
      = Result.ok x86_registers := by decide
  have h1 := register_cache_coherent.1 x86_registers x86_tracer registers_os x86_registers h
  ⟨h, h1.1, h1.2.2.2 {}⟩

/-! ## System call arguments -/

/-- A `long` survives the conversion to `unsigned long long` and back. -/
theorem to_long_to_u64 (v : Int) (h1 : -2 ^ 63 ≤ v) (h2 : v < 2 ^ 63) :
    to_long (to_u64 v) = v := by
  unfold to_long to_u64
  norm_num at h1 h2 ⊢
  omega

section
variable {R : Type}

/-- A `read_registers` on valid cached registers returns them and asks
nothing of the operating system. -/
theorem read_registers_cached (k : R) (t : tracer R) (os : OS)
    (hpid : t.tracee.process_id ≠ -1) (hv : t.tracee.registers_valid = true) :
    read_registers k t os = ⟨Result.ok t.tracee.registers, t, os⟩ := by
  unfold read_registers tracer_ensure_invariants
  simp [hpid, hv]

/-- A `read_registers` keeps the process id, and when it returns the
registers it returns are cached and valid. -/
theorem read_registers_ok (k : R) (t : tracer R) (os : OS) (regs : R)
    (h : (read_registers k t os).result = Result.ok regs) :
    (read_registers k t os).self.tracee.process_id = t.tracee.process_id
      ∧ t.tracee.process_id ≠ -1
      ∧ (read_registers k t os).self.tracee.registers = regs
      ∧ (read_registers k t os).self.tracee.registers_valid = true := by
  unfold read_registers tracer_ensure_invariants _read_registers_internal at h ⊢
  by_cases hpid : t.tracee.process_id = -1
  · simp [hpid] at h
  cases hv : t.tracee.registers_valid
  · by_cases hret : (os.ptrace PTRACE_GETREGSET t.tracee.process_id 0).1.ret = 0
    · simp [hpid, hv, hret] at h
      subst h
      simp [hpid, hv, hret]
    · simp [hpid, hv, hret] at h
  · simp [hpid, hv] at h
    subst h
    simp [hpid, hv]

/-- A `write_registers` that returns has cached the registers it wrote. -/
theorem write_registers_ok (new_registers : R) (t : tracer R) (os : OS)
    (h : (write_registers new_registers t os).result = Result.ok ()) :
    (write_registers new_registers t os).self.tracee.process_id = t.tracee.process_id
      ∧ t.tracee.process_id ≠ -1
      ∧ (write_registers new_registers t os).self.tracee.registers = new_registers
      ∧ (write_registers new_registers t os).self.tracee.registers_valid = true := by
  unfold write_registers tracer_ensure_invariants _write_registers_internal at h ⊢
  by_cases hpid : t.tracee.process_id = -1
  · simp [hpid] at h
  by_cases hret : (os.ptrace PTRACE_SETREGSET t.tracee.process_id 0).1.ret = 0
  · simp [hpid, hret]
  · simp [hpid, hret] at h

end

/-- On x86_64, an argument set is the argument got. -/
theorem x86_64_set_get (k k2 : x86_64.user_regs_struct) (i : Nat) (v : Int)
    (t : tracer x86_64.user_regs_struct) (os : OS)
    (hi : i < 6) (h1 : -2 ^ 63 ≤ v) (h2 : v < 2 ^ 63)
    (h : (x86_64.set_syscall_argument k i v t os).result = Result.ok ()) :
    x86_64.get_syscall_argument k2 i (x86_64.set_syscall_argument k i v t os).self
        (x86_64.set_syscall_argument k i v t os).os
      = ⟨Result.ok v, (x86_64.set_syscall_argument k i v t os).self,
          (x86_64.set_syscall_argument k i v t os).os⟩ := by
  have hv := to_long_to_u64 v h1 h2
  unfold x86_64.set_syscall_argument tracer_ensure_invariants at h ⊢
  by_cases hpid : t.tracee.process_id = -1
  · simp [hpid] at h
  rw [if_neg hpid] at h ⊢
  obtain ⟨regs, hr, h⟩ := Outcome.bind_ok _ _ _ h
  rw [Outcome.bind_of_ok _ _ regs hr]
  have hro := read_registers_ok k t os regs hr
  interval_cases i <;> simp only [] at h ⊢ <;>
    (obtain ⟨hw1, hw2, hw3, hw4⟩ := write_registers_ok _ _ _ h
     unfold x86_64.get_syscall_argument tracer_ensure_invariants
     rw [if_neg (by rw [hw1]; exact hw2), read_registers_cached _ _ _ (by rw [hw1]; exact hw2) hw4,
       Outcome.bind_of_ok _ _ _ rfl]
     simp only [hw3, hv])

/-- On aarch64, an argument set is the argument got. -/
theorem aarch64_set_get (k k2 : aarch64.user_regs_struct) (i : Nat) (v : Int)
    (t : tracer aarch64.user_regs_struct) (os : OS)
    (hi : i < 7) (h1 : -2 ^ 63 ≤ v) (h2 : v < 2 ^ 63)
    (h : (aarch64.set_syscall_argument k i v t os).result = Result.ok ()) :
    aarch64.get_syscall_argument k2 i (aarch64.set_syscall_argument k i v t os).self
        (aarch64.set_syscall_argument k i v t os).os
      = ⟨Result.ok v, (aarch64.set_syscall_argument k i v t os).self,
          (aarch64.set_syscall_argument k i v t os).os⟩ := by
  have hv := to_long_to_u64 v h1 h2
  have hi7 : ¬ i > 7 := by omega
  unfold aarch64.set_syscall_argument tracer_ensure_invariants at h ⊢
  by_cases hpid : t.tracee.process_id = -1
  · simp [hpid] at h
  rw [if_neg hpid, dif_neg hi7] at h ⊢
  obtain ⟨regs, hr, h⟩ := Outcome.bind_ok _ _ _ h
  rw [Outcome.bind_of_ok _ _ regs hr]
  obtain ⟨hw1, hw2, hw3, hw4⟩ := write_registers_ok _ _ _ h
  unfold aarch64.get_syscall_argument tracer_ensure_invariants
  rw [if_neg (by rw [hw1]; exact hw2), dif_neg hi7,
    read_registers_cached _ _ _ (by rw [hw1]; exact hw2) hw4, Outcome.bind_of_ok _ _ _ rfl]
  simp only [hw3, Function.update_same, hv]

/-- C17: on x86_64 and on aarch64, for every index `i` below the
`n_syscall_arguments` of the target (6 and 7) and every `long` value `v`, when
`set_syscall_argument(i, v)` returns, a `get_syscall_argument(i)` that follows
at once returns `v`, and leaves tracer and operating system as they were. -/
theorem set_then_get_syscall_argument (i : Nat) (v : Int)
    (hmin : -2 ^ 63 ≤ v) (hmax : v < 2 ^ 63) :
    (∀ (k k2 : x86_64.user_regs_struct) (t : tracer x86_64.user_regs_struct) (os : OS),
        (i : Int) < x86_64.n_syscall_arguments →
        (x86_64.set_syscall_argument k i v t os).result = Result.ok () →
        x86_64.get_syscall_argument k2 i (x86_64.set_syscall_argument k i v t os).self
            (x86_64.set_syscall_argument k i v t os).os
          = ⟨Result.ok v, (x86_64.set_syscall_argument k i v t os).self,
              (x86_64.set_syscall_argument k i v t os).os⟩)
    ∧ (∀ (k k2 : aarch64.user_regs_struct) (t : tracer aarch64.user_regs_struct) (os : OS),
        (i : Int) < aarch64.n_syscall_arguments →
        (aarch64.set_syscall_argument k i v t os).result = Result.ok () →
        aarch64.get_syscall_argument k2 i (aarch64.set_syscall_argument k i v t os).self
            (aarch64.set_syscall_argument k i v t os).os
          = ⟨Result.ok v, (aarch64.set_syscall_argument k i v t os).self,
              (aarch64.set_syscall_argument k i v t os).os⟩) := by
  constructor
  · intro k k2 t os hi h
    unfold x86_64.n_syscall_arguments at hi
    exact x86_64_set_get k k2 i v t os (by omega) hmin hmax h
  · intro k k2 t os hi h
    unfold aarch64.n_syscall_arguments at hi
    exact aarch64_set_get k k2 i v t os (by omega) hmin hmax h

theorem set_then_get_syscall_argument_witness :
    (x86_64.set_syscall_argument x86_registers 5 (-1) x86_tracer registers_os).result
        = Result.ok ()
      ∧ (x86_64.get_syscall_argument x86_registers 5
          (x86_64.set_syscall_argument x86_registers 5 (-1) x86_tracer registers_os).self
          (x86_64.set_syscall_argument x86_registers 5 (-1) x86_tracer registers_os).os).result
        = Result.ok (-1)
      ∧ (aarch64.set_syscall_argument arm_registers 6 (-1) arm_tracer registers_os).result
        = Result.ok ()
      ∧ (aarch64.get_syscall_argument arm_registers 6
          (aarch64.set_syscall_argument arm_registers 6 (-1) arm_tracer registers_os).self
          (aarch64.set_syscall_argument arm_registers 6 (-1) arm_tracer registers_os).os).result
        = Result.ok (-1) :=
  have hx : (x86_64.set_syscall_argument x86_registers 5 (-1) x86_tracer registers_os).result
      = Result.ok () := by decide
  have ha : (aarch64.set_syscall_argument arm_registers 6 (-1) arm_tracer registers_os).result
      = Result.ok () := by decide
  have h := set_then_get_syscall_argument 5 (-1) (by decide) (by decide)
  have h6 := set_then_get_syscall_argument 6 (-1) (by decide) (by decide)
  ⟨hx, congrArg Outcome.result (h.1 x86_registers x86_registers x86_tracer registers_os
      (by decide) hx),
   ha, congrArg Outcome.result (h6.2 arm_registers arm_registers arm_tracer registers_os
      (by decide) ha)⟩

/-! ## The bound on the argument index -/

/-- On x86_64 an index of 6 or more is refused: neither call returns, `set`
sends no register write, and once the registers are there the exception is
the one for an argument out of range. -/
theorem x86_64_argument_out_of_range (k : x86_64.user_regs_struct) (i : Nat) (v : Int)
    (t : tracer x86_64.user_regs_struct) (os : OS) (hi : 6 ≤ i) :
    (∀ a, (x86_64.get_syscall_argument k i t os).result ≠ Result.ok a)
      ∧ (x86_64.set_syscall_argument k i v t os).result ≠ Result.ok ()
      ∧ (x86_64.set_syscall_argument k i v t os).os = (read_registers k t os).os
      ∧ (∀ regs, (read_registers k t os).result = Result.ok regs →
          (x86_64.get_syscall_argument k i t os).result
              = Result.throw (tracer_exception.syscall_argument_not_in_range i)
          ∧ (x86_64.set_syscall_argument k i v t os).result
              = Result.throw (tracer_exception.syscall_argument_not_in_range i)) := by
  obtain ⟨j, rfl⟩ : ∃ j, i = j + 6 := ⟨i - 6, by omega⟩
  unfold x86_64.get_syscall_argument x86_64.set_syscall_argument tracer_ensure_invariants
  by_cases hpid : t.tracee.process_id = -1
  · simp [hpid, read_registers, tracer_ensure_invariants]
  rw [if_neg hpid, if_neg hpid]
  cases hr : (read_registers k t os).result with
  | ok regs => simp [Outcome.bind, hr]
  | throw e => simp [Outcome.bind, hr]
  | blocked => simp [Outcome.bind, hr]
  | undefined => simp [Outcome.bind, hr]
  | out_of_fuel => simp [Outcome.bind, hr]

/-- On aarch64 an index above 7 is refused before any register is read or
written. -/
theorem aarch64_argument_out_of_range (k : aarch64.user_regs_struct) (i : Nat) (v : Int)
    (t : tracer aarch64.user_regs_struct) (os : OS) (hi : 7 < i)
    (hpid : t.tracee.process_id ≠ -1) :
    aarch64.get_syscall_argument k i t os
        = ⟨Result.throw (tracer_exception.syscall_argument_not_in_range i), t, os⟩
      ∧ aarch64.set_syscall_argument k i v t os
        = ⟨Result.throw (tracer_exception.syscall_argument_not_in_range i), t, os⟩ := by
  unfold aarch64.get_syscall_argument aarch64.set_syscall_argument tracer_ensure_invariants
  simp [hpid, hi]

/-- C18: the code at the failing input.  On aarch64 `n_syscall_arguments` is
7, yet the index 7, outside `[0, 7)`, is accepted: `get_syscall_argument(7)`
returns the register `regs[7]` and `set_syscall_argument(7, 5)` returns after
a register write that has put 5 into `regs[7]`. -/
theorem aarch64_argument_7_accepted :
    aarch64.n_syscall_arguments = 7
      ∧ (aarch64.get_syscall_argument arm_registers 7 arm_tracer registers_os).result
          = Result.ok 99
      ∧ (aarch64.set_syscall_argument arm_registers 7 5 arm_tracer registers_os).result
          = Result.ok ()
      ∧ (aarch64.set_syscall_argument arm_registers 7 5 arm_tracer registers_os).os.calls
          = [os_call.ptrace PTRACE_GETREGSET 100 0, os_call.ptrace PTRACE_SETREGSET 100 0]
      ∧ (aarch64.set_syscall_argument arm_registers 7 5 arm_tracer
          registers_os).self.tracee.registers.regs 7 = 5 := by
  decide

/-! ## The setup stop -/

section
variable {R : Type} [Inhabited R]

/-- A `wait` whose first scripted `waitpid` result is a stop of the tracee
other than a fork event: the stop is stored and returned. -/
theorem wait_fuel_head (f : Nat) (t : tracer R) (os : OS) (r : waitpid_result)
    (rest : List waitpid_result) (hpid : t.tracee.process_id ≠ -1)
    (hst : t.tracee.stop_reason = NOT_STOPPED) (hos : os.waitpid_results = r :: rest)
    (hret : r.ret = t.tracee.process_id) :
    (∀ s, (wait_fuel (f + 1) t os).result = Result.ok s →
        s = stop_reason_for_wait_status r.status t.tracee.in_syscall)
    ∧ (stop_reason_for_wait_status r.status t.tracee.in_syscall ≠ NOT_STOPPED →
        stop_reason_for_wait_status r.status t.tracee.in_syscall ≠ FORKED →
        wait_fuel (f + 1) t os
          = ⟨Result.ok (stop_reason_for_wait_status r.status t.tracee.in_syscall),
              { t with tracee := tracee_after_stop t.tracee r.status },
              { os with waitpid_results := rest,
                        calls := os.calls ++ [os_call.waitpid t.tracee.process_id] }⟩) := by
  have hw : waitpid_retry t.tracee.process_id os.waitpid_results os.calls
      = (some r, rest, os.calls ++ [os_call.waitpid t.tracee.process_id]) := by
    rw [hos]
    simp [waitpid_retry, hret]
  simp only [wait_fuel, tracer_ensure_invariants, hw]
  rw [if_neg hpid, if_neg (by simpa using hst)]
  simp only [hret, ne_eq, not_true_eq_false, if_false]
  constructor
  · intro s h
    by_cases hns : stop_reason_for_wait_status r.status t.tracee.in_syscall = NOT_STOPPED
    · simp [hns] at h
    rw [if_neg hns] at h
    by_cases hsys : stop_reason_for_wait_status r.status t.tracee.in_syscall = SYSCALL_ENTRY
        ∨ stop_reason_for_wait_status r.status t.tracee.in_syscall = SYSCALL_EXIT
    · rw [if_pos hsys] at h
      simpa using h.symm
    rw [if_neg hsys] at h
    by_cases hfk : stop_reason_for_wait_status r.status t.tracee.in_syscall = FORKED
    · rw [if_pos hfk] at h
      obtain ⟨a, _, h2⟩ := Outcome.bind_ok _ _ _ h
      simp only [Result.ok.injEq] at h2
      rw [← h2, _handle_fork_tracee]
    · rw [if_neg hfk] at h
      simpa using h.symm
  · intro hns hfk
    rw [if_neg hns, if_neg hfk]
    by_cases hsys : stop_reason_for_wait_status r.status t.tracee.in_syscall = SYSCALL_ENTRY
        ∨ stop_reason_for_wait_status r.status t.tracee.in_syscall = SYSCALL_EXIT
    · rw [if_pos hsys]
      simp [tracee_after_stop, hsys]
    · rw [if_neg hsys]
      simp [tracee_after_stop, hsys]

/-- A `wait` with any nesting bound that returns, returns the `stop_reason`
it has stored. -/
theorem wait_fuel_ok_stop_reason (f : Nat) (t : tracer R) (os : OS) (s : stop_reason)
    (h : (wait_fuel f t os).result = Result.ok s) :
    (wait_fuel f t os).self.tracee.stop_reason = s := by
  rcases wait_fuel_cases f t os with ⟨_, h2⟩ | ⟨status, _, _, _, _, h4, h5⟩
  · exact absurd h (h2 s)
  · rw [h4, h5 s h]
    rfl

/-- When the loop of `_await_sigstop` returns, the tracee is stopped by
`SIGSTOP`. -/
theorem _await_sigstop_loop_ok (f : Nat) :
    ∀ (p : List Int) (t : tracer R) (os : OS),
      (_await_sigstop_loop f p t os).result = Result.ok () →
      (_await_sigstop_loop f p t os).self.tracee.stop_reason = SIGNALED
        ∧ WSTOPSIG (_await_sigstop_loop f p t os).self.tracee.status = SIGSTOP := by
  induction f with
  | zero => intro p t os h; simp [_await_sigstop_loop] at h
  | succ f ih =>
    intro p t os h
    rw [_await_sigstop_loop] at h ⊢
    obtain ⟨s, hr, h⟩ := Outcome.bind_ok _ _ _ h
    rw [Outcome.bind_of_ok _ _ s hr]
    have hs := wait_fuel_ok_stop_reason f t os s hr
    by_cases h1 : s ≠ SIGNALED
    · rw [if_pos h1] at h
      simp at h
    rw [if_neg h1] at h ⊢
    by_cases h2 : WSTOPSIG (wait_fuel f t os).self.tracee.status ≠ SIGSTOP
    · rw [if_pos h2] at h ⊢
      obtain ⟨u, hr2, h⟩ := Outcome.bind_ok _ _ _ h
      rw [Outcome.bind_of_ok _ _ u hr2]
      exact ih _ _ _ h
    · rw [if_neg h2]
      refine ⟨?_, by simpa using h2⟩
      rw [hs]
      simpa using h1

/-- When `_await_sigstop` returns, the tracee is stopped by `SIGSTOP`. -/
theorem await_sigstop_ok (t : tracer R) (os : OS)
    (h : (await_sigstop t os).result = Result.ok ()) :
    (await_sigstop t os).self.tracee.stop_reason = SIGNALED
      ∧ WSTOPSIG (await_sigstop t os).self.tracee.status = SIGSTOP
      ∧ t.tracee.process_id ≠ -1 := by
  unfold await_sigstop fuel_for at h ⊢
  simp only [_await_sigstop, tracer_ensure_invariants] at h ⊢
  by_cases hpid : t.tracee.process_id = -1
  · simp [hpid] at h
  rw [if_neg hpid] at h ⊢
  exact ⟨(_await_sigstop_loop_ok _ _ _ _ h).1, (_await_sigstop_loop_ok _ _ _ _ h).2, hpid⟩

end

section
variable {R : Type}

/-- The call `resume` keeps the process id. -/
theorem resume_process_id (until_ : stop_reason) (t : tracer R) (os : OS) :
    (resume until_ t os).self.tracee.process_id = t.tracee.process_id := by
  unfold resume tracer_ensure_invariants
  split_ifs <;> rfl

end

section
variable {R : Type} [Inhabited R]

/-- The call `wait` keeps the process id, with any nesting bound. -/
theorem wait_fuel_process_id (f : Nat) (t : tracer R) (os : OS) :
    (wait_fuel f t os).self.tracee.process_id = t.tracee.process_id := by
  rcases wait_fuel_cases f t os with ⟨h1, _⟩ | ⟨status, _, _, _, _, h4, _⟩
  · rw [h1]
  · rw [h4]
    rfl

/-- The loop of `_await_sigstop` keeps the process id. -/
theorem _await_sigstop_loop_process_id (f : Nat) :
    ∀ (p : List Int) (t : tracer R) (os : OS),
      (_await_sigstop_loop f p t os).self.tracee.process_id = t.tracee.process_id := by
  induction f with
  | zero => intro p t os; simp [_await_sigstop_loop]
  | succ f ih =>
    intro p t os
    rw [_await_sigstop_loop]
    have hw := wait_fuel_process_id f t os
    cases hr : (wait_fuel f t os).result with
    | ok s =>
      rw [Outcome.bind_of_ok _ _ s hr]
      split_ifs
      · exact hw
      · have hres := resume_process_id SIGNALED (wait_fuel f t os).self (wait_fuel f t os).os
        cases hr2 : (resume SIGNALED (wait_fuel f t os).self (wait_fuel f t os).os).result with
        | ok u =>
          rw [Outcome.bind_of_ok _ _ u hr2, ih, hres, hw]
        | _ =>
          rw [(Outcome.bind_of_not_ok _ _ (by simp [hr2])).1, hres, hw]
      · exact hw
    | _ =>
      rw [(Outcome.bind_of_not_ok _ _ (by simp [hr])).1]
      exact hw

/-- The call `_await_sigstop` keeps the process id. -/
theorem await_sigstop_process_id (t : tracer R) (os : OS) :
    (await_sigstop t os).self.tracee.process_id = t.tracee.process_id := by
  unfold await_sigstop fuel_for
  simp only [_await_sigstop, tracer_ensure_invariants]
  split_ifs
  · rfl
  · rw [_await_sigstop_loop_process_id]

end

section
variable {R : Type} [Inhabited R]

/-- The iterations of the loop of `_await_sigstop` over a prefix of reported
stops by signals other than `SIGSTOP`: each is queued and followed by a
resume request. -/
theorem _await_sigstop_loop_prefix (stops : List waitpid_result) :
    ∀ (f : Nat) (p : List Int) (t : tracer R) (os : OS) (tail : List waitpid_result),
      4 * os.waitpid_results.length + 2 ≤ f →
      t.tracee.process_id ≠ -1 →
      t.tracee.stop_reason = NOT_STOPPED →
      os.waitpid_results = stops ++ tail →
      (∀ r ∈ stops, r.ret = t.tracee.process_id
        ∧ stop_reason_for_wait_status r.status t.tracee.in_syscall = SIGNALED
        ∧ WSTOPSIG r.status ≠ SIGSTOP) →
      ∃ (f2 : Nat) (t2 : tracer R) (os2 : OS),
        4 * tail.length + 2 ≤ f2
        ∧ _await_sigstop_loop f p t os
            = _await_sigstop_loop f2 (p ++ stops.map fun r => WSTOPSIG r.status) t2 os2
        ∧ t2.tracee.process_id = t.tracee.process_id
        ∧ t2.tracee.stop_reason = NOT_STOPPED
        ∧ t2.tracee.in_syscall = t.tracee.in_syscall
        ∧ t2._children = t._children
        ∧ os2.waitpid_results = tail
        ∧ os2.ptrace_results = os.ptrace_results
        ∧ os2.calls = os.calls ++ wait_resume_calls t.tracee.process_id stops.length := by
  induction stops with
  | nil =>
    intro f p t os tail hf hpid hst hos _
    refine ⟨f, t, os, ?_, by simp, rfl, hst, rfl, rfl, by simpa using hos, rfl,
      by simp [wait_resume_calls]⟩
    rw [hos] at hf
    simpa using hf
  | cons r stops ih =>
    intro f p t os tail hf hpid hst hos hall
    have hr := hall r (List.mem_cons_self _ _)
    have hlen : os.waitpid_results.length = stops.length + tail.length + 1 := by
      rw [hos]
      simp only [List.length_cons, List.length_append]
      omega
    obtain ⟨g, rfl⟩ : ∃ g, f = g + 1 + 1 := ⟨f - 2, by omega⟩
    have hw := (wait_fuel_head g t os r (stops ++ tail) hpid hst (by simpa using hos) hr.1).2
      (by rw [hr.2.1]; decide) (by rw [hr.2.1]; decide)
    rw [hr.2.1] at hw
    have hta : tracee_after_stop t.tracee r.status
        = { t.tracee with status := r.status, stop_reason := SIGNALED } := by
      unfold tracee_after_stop
      simp [hr.2.1]
    rw [hta] at hw
    obtain ⟨f2, t2, os2, h1, h2, h3, h4, h5, h6, h7, h8, h9⟩ :=
      ih (g + 1) (p ++ [WSTOPSIG r.status])
        { t with tracee := { t.tracee with status := r.status, stop_reason := NOT_STOPPED,
                                           registers_valid := false } }
        { os with waitpid_results := stops ++ tail,
                  calls := os.calls ++ [os_call.waitpid t.tracee.process_id]
                    ++ [os_call.ptrace PTRACE_CONT t.tracee.process_id 0] }
        tail (by simp only [List.length_append]; omega) hpid rfl rfl
        (fun r2 hr2 => hall r2 (List.mem_cons_of_mem _ hr2))
    refine ⟨f2, t2, os2, h1, ?_, h3, h4, h5, h6, h7, h8, ?_⟩
    · rw [_await_sigstop_loop, hw]
      simp only [Outcome.bind, resume, tracer_ensure_invariants, ptrace_request_for_stop_reason]
      simp only [hpid, hr.2.2, ne_eq, not_true_eq_false, not_false_eq_true, if_true, if_false]
      simp only [reduceCtorEq, if_false]
      rw [h2]
      simp
    · rw [h9]
      simp [wait_resume_calls]

end

section
variable {R : Type} [Inhabited R]

/-- C15: let the operating system report, for the tracee, stops by signals
`S1..Sk` other than `SIGSTOP` and then one more stop.  If that stop is by
`SIGSTOP`, `_await_sigstop` returns: it has sent one resume request after each
`Si` and none after the `SIGSTOP`, the tracee is left stopped
(`stop_reason = SIGNALED`, stop signal `SIGSTOP`), and after the last `waitpid`
exactly the signals `S1..Sk` were sent to the process id of the tracee, in
that order.  If that stop is not translated to `SIGNALED`, `_await_sigstop`
does not return; for an exit or a syscall-stop it throws the unexpected-stop
exception and sends no signal. -/
theorem await_sigstop_reinjects (t : tracer R) (os : OS) (stops : List waitpid_result)
    (last : waitpid_result) (rest : List waitpid_result)
    (hpid : t.tracee.process_id ≠ -1)
    (hscript : os.waitpid_results = stops ++ last :: rest)
    (hstops : ∀ r ∈ stops, r.ret = t.tracee.process_id
      ∧ stop_reason_for_wait_status r.status t.tracee.in_syscall = SIGNALED
      ∧ WSTOPSIG r.status ≠ SIGSTOP)
    (hlast : last.ret = t.tracee.process_id) :
    (stop_reason_for_wait_status last.status t.tracee.in_syscall = SIGNALED →
      WSTOPSIG last.status = SIGSTOP →
        (await_sigstop t os).result = Result.ok ()
        ∧ (await_sigstop t os).self.tracee.stop_reason = SIGNALED
        ∧ (await_sigstop t os).self.tracee.status = last.status
        ∧ (await_sigstop t os).self.tracee.process_id = t.tracee.process_id
        ∧ (await_sigstop t os).self.tracee.in_syscall = t.tracee.in_syscall
        ∧ (await_sigstop t os).self._children = t._children
        ∧ (await_sigstop t os).os.waitpid_results = rest
        ∧ (await_sigstop t os).os.calls
            = os.calls ++ wait_resume_calls t.tracee.process_id stops.length
              ++ [os_call.waitpid t.tracee.process_id]
              ++ stops.map fun r => os_call.kill t.tracee.process_id (WSTOPSIG r.status))
    ∧ (stop_reason_for_wait_status last.status t.tracee.in_syscall ≠ SIGNALED →
        ∀ u, (await_sigstop t os).result ≠ Result.ok u)
    ∧ (stop_reason_for_wait_status last.status t.tracee.in_syscall = EXITED
        ∨ stop_reason_for_wait_status last.status t.tracee.in_syscall = SYSCALL_ENTRY
        ∨ stop_reason_for_wait_status last.status t.tracee.in_syscall = SYSCALL_EXIT →
        (await_sigstop t os).result
            = Result.throw (tracer_exception.unexpected_stop_during_attach
                (stop_reason_for_wait_status last.status t.tracee.in_syscall) last.status)
        ∧ (await_sigstop t os).os.calls
            = os.calls ++ wait_resume_calls t.tracee.process_id stops.length
              ++ [os_call.waitpid t.tracee.process_id]) := by
  obtain ⟨f2, t2, os2, h1, h2, h3, h4, h5, h6, h7, _, h9⟩ :=
    _await_sigstop_loop_prefix stops (4 * os.waitpid_results.length + 3) []
      { t with tracee := { t.tracee with stop_reason := NOT_STOPPED } } os (last :: rest)
      (by omega) hpid rfl hscript hstops
  have hrun : await_sigstop t os
      = _await_sigstop_loop f2 (stops.map fun r => WSTOPSIG r.status) t2 os2 := by
    unfold await_sigstop fuel_for
    simp only [_await_sigstop, tracer_ensure_invariants]
    rw [if_neg hpid, h2]
    simp
  simp only [] at h3 h5 h6 h9
  obtain ⟨g, rfl⟩ : ∃ g, f2 = g + 1 + 1 := ⟨f2 - 2, by simp only [List.length_cons] at h1; omega⟩
  have hpid2 : t2.tracee.process_id ≠ -1 := by rw [h3]; exact hpid
  have hhead := wait_fuel_head g t2 os2 last rest hpid2 h4 h7 (by rw [h3]; exact hlast)
  rw [h5] at hhead
  rw [hrun, _await_sigstop_loop]
  refine ⟨?_, ?_, ?_⟩
  · intro hsig hstop
    have hw := hhead.2 (by rw [hsig]; decide) (by rw [hsig]; decide)
    rw [hsig] at hw
    rw [hw]
    simp [Outcome.bind, tracee_after_stop, h5, hsig, hstop, kill_all, h3, h6, h9,
      List.map_map, Function.comp_def]
  · intro hne u hc
    obtain ⟨s, hr, hk⟩ := Outcome.bind_ok _ _ _ hc
    have hs := hhead.1 s hr
    rw [if_pos (by rw [hs]; exact hne)] at hk
    simp at hk
  · intro hcase
    have hne : stop_reason_for_wait_status last.status t.tracee.in_syscall ≠ SIGNALED := by
      rcases hcase with h | h | h <;> rw [h] <;> decide
    have hw := hhead.2 (by rcases hcase with h | h | h <;> rw [h] <;> decide)
      (by rcases hcase with h | h | h <;> rw [h] <;> decide)
    rw [hw]
    simp [Outcome.bind, hne, tracee_after_stop, h3, h9]

end

theorem await_sigstop_reinjects_witness :
    (await_sigstop (tracer.ctor 100 : tracer Unit) signals_os).result = Result.ok ()
      ∧ (await_sigstop (tracer.ctor 100 : tracer Unit) signals_os).os.calls
          = [os_call.waitpid 100, os_call.ptrace PTRACE_CONT 100 0,
             os_call.waitpid 100, os_call.ptrace PTRACE_CONT 100 0,
             os_call.waitpid 100, os_call.kill 100 10, os_call.kill 100 17] :=
  have h := (await_sigstop_reinjects (tracer.ctor 100 : tracer Unit) signals_os
    [⟨100, 0x0a7f, 0⟩, ⟨100, 0x117f, 0⟩] ⟨100, 0x137f, 0⟩ [] (by decide) rfl (by decide)
    rfl).1 (by decide) (by decide)
  ⟨h.1, by decide⟩

/-! ## The order of set-up in `fork` and `attach` -/

/-- The log after an inspected `ptrace` call. -/
theorem OS.ptrace_calls (os : OS) (rq : ptrace_request) (pid data : Int) :
    (os.ptrace rq pid data).2.calls = os.calls ++ [os_call.ptrace rq pid data] := by
  unfold OS.ptrace
  split <;> rfl

section
variable {R : Type} [Inhabited R]

/-- In the parent role of `fork` the set-options request comes last: it is
sent only when `_await_sigstop` has returned, that is with the new tracee
stopped by `SIGSTOP`, and it is sent for the process id of the new tracee,
which is not `-1`. -/
theorem fork_set_options_after_sigstop (child : Int) (t : tracer R) (os : OS)
    (hchild : child ≠ 0) (hfresh : t.tracee.process_id = -1) :
    ((await_sigstop { t with tracee := { t.tracee with process_id := child } }
          { os with calls := os.calls ++ [os_call.fork] }).result = Result.ok () →
        (await_sigstop { t with tracee := { t.tracee with process_id := child } }
          { os with calls := os.calls ++ [os_call.fork] }).self.tracee.stop_reason = SIGNALED
        ∧ WSTOPSIG (await_sigstop { t with tracee := { t.tracee with process_id := child } }
          { os with calls := os.calls ++ [os_call.fork] }).self.tracee.status = SIGSTOP
        ∧ child ≠ -1
        ∧ (fork child t os).os.calls
            = (await_sigstop { t with tracee := { t.tracee with process_id := child } }
                { os with calls := os.calls ++ [os_call.fork] }).os.calls
              ++ [os_call.ptrace PTRACE_SETOPTIONS child 1])
    ∧ ((∀ u, (await_sigstop { t with tracee := { t.tracee with process_id := child } }
          { os with calls := os.calls ++ [os_call.fork] }).result ≠ Result.ok u) →
        (fork child t os).os
          = (await_sigstop { t with tracee := { t.tracee with process_id := child } }
              { os with calls := os.calls ++ [os_call.fork] }).os) := by
  have hopt : Int.lor 0 PTRACE_O_TRACESYSGOOD = 1 := by decide
  unfold fork
  simp only [hfresh, ne_eq, not_true_eq_false, if_false, hchild]
  constructor
  · intro h
    obtain ⟨h1, h2, h3⟩ := await_sigstop_ok _ _ h
    refine ⟨h1, h2, h3, ?_⟩
    rw [Outcome.bind_of_ok _ _ () h]
    unfold _set_options
    simp only [hopt, Bool.false_eq_true, if_false]
    have hp := await_sigstop_process_id { t with tracee := { t.tracee with process_id := child } }
      { os with calls := os.calls ++ [os_call.fork] }
    simp only [] at hp
    rw [hp]
    have hc := OS.ptrace_calls
      (await_sigstop { t with tracee := { t.tracee with process_id := child } }
        { os with calls := os.calls ++ [os_call.fork] }).os PTRACE_SETOPTIONS child 1
    split_ifs <;> simp [Outcome.bind, hc]
  · intro h
    rw [(Outcome.bind_of_not_ok _ _ h).2.1]

/-- In `attach` the set-options request follows the attach request at once: it
is sent for the process id the tracer had before, and `_await_sigstop` for the
new tracee starts only when it has been answered with success. -/
theorem attach_set_options_first (pid : Int) (t : tracer R) (os : OS)
    (hattach : (os.ptrace PTRACE_ATTACH pid 0).1.ret = 0) :
    ((os.ptrace PTRACE_ATTACH pid 0).2.ptrace PTRACE_SETOPTIONS t.tracee.process_id 1).2.calls
        = os.calls ++ [os_call.ptrace PTRACE_ATTACH pid 0,
            os_call.ptrace PTRACE_SETOPTIONS t.tracee.process_id 1]
    ∧ (((os.ptrace PTRACE_ATTACH pid 0).2.ptrace PTRACE_SETOPTIONS
          t.tracee.process_id 1).1.ret ≠ 0 →
        attach pid t os
          = ⟨Result.throw (tracer_exception.could_not_set_options
              ((os.ptrace PTRACE_ATTACH pid 0).2.ptrace PTRACE_SETOPTIONS
                t.tracee.process_id 1).1.errno), t,
             ((os.ptrace PTRACE_ATTACH pid 0).2.ptrace PTRACE_SETOPTIONS
                t.tracee.process_id 1).2⟩)
    ∧ (((os.ptrace PTRACE_ATTACH pid 0).2.ptrace PTRACE_SETOPTIONS
          t.tracee.process_id 1).1.ret = 0 →
        attach pid t os
          = await_sigstop { t with tracee := { t.tracee with process_id := pid } }
              ((os.ptrace PTRACE_ATTACH pid 0).2.ptrace PTRACE_SETOPTIONS
                t.tracee.process_id 1).2) := by
  have hopt : Int.lor 0 PTRACE_O_TRACESYSGOOD = 1 := by decide
  refine ⟨?_, ?_, ?_⟩
  · rw [OS.ptrace_calls, OS.ptrace_calls]
    simp
  · intro h
    unfold attach _set_options
    simp [hattach, hopt, h, Outcome.bind]
  · intro h
    unfold attach _set_options
    simp [hattach, hopt, h, Outcome.bind]

end

/-- C14: the code at the failing input.  On a fresh tracer (`process_id = -1`)
`attach(100)` sends the set-options request for process `-1`, right after the
attach request and before any `waitpid`: when the operating system refuses it
(`ESRCH`), `attach` throws without having waited for the `SIGSTOP`; when it is
accepted, the `waitpid` comes after it.  In the parent role of `fork` the
request is sent for the child, after the `waitpid` that saw the `SIGSTOP`. -/
theorem attach_sets_options_before_sigstop :
    fresh_tracer.tracee.process_id = -1
      ∧ (attach 100 fresh_tracer attach_esrch_os).result
          = Result.throw (tracer_exception.could_not_set_options 3)
      ∧ (attach 100 fresh_tracer attach_esrch_os).os.calls
          = [os_call.ptrace PTRACE_ATTACH 100 0, os_call.ptrace PTRACE_SETOPTIONS (-1) 1]
      ∧ (attach 100 fresh_tracer attach_os).result = Result.ok ()
      ∧ (attach 100 fresh_tracer attach_os).os.calls
          = [os_call.ptrace PTRACE_ATTACH 100 0, os_call.ptrace PTRACE_SETOPTIONS (-1) 1,
             os_call.waitpid 100]
      ∧ (fork 100 fresh_tracer attach_os).result = Result.ok 100
      ∧ (fork 100 fresh_tracer attach_os).os.calls
          = [os_call.fork, os_call.waitpid 100, os_call.ptrace PTRACE_SETOPTIONS 100 1] := by
  decide

end Tracer
